import Mathlib

/-!
# Verification of the schema-tracker CLI (tools/schema-tracker/src/main.rs)

A shallow embedding, in Lean 4, of the schema-tracker tool: a single-shot
CLI that derives a JSON Schema from an example JSON value (the structural
analyzer) or from a reflected type (the declarative path), hashes the
serialized schema with SHA-256, stamps it with a timestamp and a git
revision, and assembles an output document.

Modelling conventions:
* `serde_json::Value` is embedded as the inductive `Json` below.  With
  serde_json's default features, `serde_json::Map` is a `BTreeMap`, so JSON
  objects are represented as association lists kept sorted by key
  (strictly increasing, byte-lexicographic); `insertSorted` is the
  `BTreeMap::insert` and `mkObj` builds an object from a `json!`-literal's
  written field order.  Lean's `String` order is codepoint-lexicographic,
  which coincides with Rust's byte-lexicographic order on UTF-8 strings.
* `serde_json::Number` is embedded as `JNumber` with the same three
  internal representations (`PosInt`/`NegInt`/`Float`); a float carries its
  exact rational value.
* Machine integers are `Nat`/`Int` with explicit bounds where they matter;
  SHA-256 is implemented over `Nat` with explicit reduction `% 2^32`.
* Fallible Rust functions returning `Result` are embedded as `Except`.
* Ambient effects (the current time, the serialized test instance coming
  from the external `ConversationState` type, the `git rev-parse`
  subprocess, the schemars reflection output) become explicit parameters.
-/

namespace SchemaTracker

/-- The internal representation of `serde_json::Number` (default features):
a non-negative integer (`u64`), a negative integer (`i64`), or a double.
The float constructor carries the exact rational value of the `f64`. -/
inductive JNumber where
  | posInt (v : Nat)
  | negInt (v : Int)
  | float (q : ℚ)

/-- `serde_json::Number::is_i64`: true for `NegInt`, true for `PosInt`
within `i64::MAX`, false for any `Float`. -/
def JNumber.is_i64 : JNumber → Bool
  | .posInt v => v ≤ 9223372036854775807
  | .negInt _ => true
  | .float _ => false

/-- `serde_json::Number::is_u64`: true exactly for `PosInt`. -/
def JNumber.is_u64 : JNumber → Bool
  | .posInt _ => true
  | .negInt _ => false
  | .float _ => false

/-- `serde_json::Value`.  Objects are association lists sorted strictly by
key, mirroring `BTreeMap<String, Value>` (serde_json default features). -/
inductive Json where
  | null
  | bool (b : Bool)
  | num (n : JNumber)
  | str (s : String)
  | arr (elems : List Json)
  | obj (fields : List (String × Json))

/-- `Value::is_null`. -/
def Json.is_null : Json → Bool
  | .null => true
  | _ => false

/-- Lexicographic order on character lists by codepoint. -/
def listLtB : List Char → List Char → Bool
  | [], [] => false
  | [], _ :: _ => true
  | _ :: _, [] => false
  | c :: cs, d :: ds =>
      if c.toNat < d.toNat then true
      else if d.toNat < c.toNat then false
      else listLtB cs ds

/-- Rust's `Ord for String` (byte-lexicographic on UTF-8), as the
equivalent codepoint-lexicographic comparison: UTF-8 encoding preserves
lexicographic order, so comparing codepoints compares the bytes. -/
def strLtB (a b : String) : Bool := listLtB a.toList b.toList

/-- `BTreeMap::insert` on a key-sorted association list: replace an equal
key, otherwise insert at the unique position keeping keys increasing. -/
def insertSorted (k : String) (v : Json) : List (String × Json) → List (String × Json)
  | [] => [(k, v)]
  | (k', v') :: rest =>
    if strLtB k k' then (k, v) :: (k', v') :: rest
    else if k = k' then (k, v) :: rest
    else (k', v') :: insertSorted k v rest

/-- Build a JSON object from the field order written in a `json!` literal:
the macro inserts the fields left to right into a fresh `BTreeMap`. -/
def mkObj (l : List (String × Json)) : Json :=
  .obj (l.foldl (fun acc kv => insertSorted kv.1 kv.2 acc) [])

/-- Field lookup in a JSON object (`Value::get` on objects). -/
def Json.lookup (j : Json) (k : String) : Option Json :=
  match j with
  | .obj l => List.lookup k l
  | _ => none

/-- The keys of a JSON object, in stored (sorted) order. -/
def Json.objKeys : Json → List String
  | .obj l => l.map (fun kv => kv.1)
  | _ => []

/-- `Value::is_object`. -/
def Json.is_object : Json → Bool
  | .obj _ => true
  | _ => false

/-- `type_name.chars().next().unwrap().to_uppercase() + &type_name[1..]`
from `analyze_field_structure`'s number arm, for ASCII one-word names
(the only inputs are "integer" and "number").  The `unwrap` cannot be
reached there since neither literal is empty; the empty case is mapped to
the empty string. -/
def capitalizeFirst (s : String) : String :=
  match s.toList with
  | [] => ""
  | c :: cs => String.mk (c.toUpper :: cs)

/-- Error type of the structural analyzer: `eyre::eyre!("Expected object
at root level, got {:?}", value)` keeps the offending value. -/
inductive AnalyzeError where
  | expectedObjectAtRoot (got : Json)

/-- `analyze_field_structure` (main.rs:208-264): schema fragment for one
field.  Strings, numbers, booleans, objects and nulls are leaves; an
array recurses on its first element only (field name "array_item"), and
an empty array gets a placeholder `items`.  A nested object is a bare
leaf: the function does not recurse into object fields. -/
def analyze_field_structure : Json → String → Except AnalyzeError Json
  | .str _, field_name =>
      .ok (mkObj [("type", .str "string"),
                  ("description", .str ("String field: " ++ field_name))])
  | .num n, field_name =>
      let type_name := if n.is_i64 || n.is_u64 then "integer" else "number"
      .ok (mkObj [("type", .str type_name),
                  ("description", .str (capitalizeFirst type_name ++ " field: " ++ field_name))])
  | .bool _, field_name =>
      .ok (mkObj [("type", .str "boolean"),
                  ("description", .str ("Boolean field: " ++ field_name))])
  | .arr [], field_name =>
      .ok (mkObj [("type", .str "array"),
                  ("items", mkObj [("description", .str "Array type - items unknown from empty array")]),
                  ("description", .str ("Array field: " ++ field_name))])
  | .arr (first_item :: _), field_name => do
      let items_schema ← analyze_field_structure first_item "array_item"
      .ok (mkObj [("type", .str "array"),
                  ("items", items_schema),
                  ("description", .str ("Array field: " ++ field_name))])
  | .obj _, field_name =>
      .ok (mkObj [("type", .str "object"),
                  ("description", .str ("Object field: " ++ field_name))])
  | .null, field_name =>
      .ok (mkObj [("anyOf", .arr [mkObj [("type", .str "null")],
                                  mkObj [("description", .str "Optional field - type determined at runtime")]]),
                  ("description", .str ("Optional field: " ++ field_name))])

/-- One iteration of `analyze_complete_structure`'s field loop: analyze
the field, insert its schema into `properties`, and push the name onto
`required_fields` when the value is not null. -/
def analyzeStep (acc : List (String × Json) × List String) (fv : String × Json) :
    Except AnalyzeError (List (String × Json) × List String) := do
  let field_schema ← analyze_field_structure fv.2 fv.1
  let properties := insertSorted fv.1 field_schema acc.1
  let required_fields := if !fv.2.is_null then acc.2 ++ [fv.1] else acc.2
  .ok (properties, required_fields)

/-- `analyze_complete_structure` (main.rs:176-205): on an object root,
fold `analyzeStep` over the fields in map (sorted) order and assemble the
draft-07 schema; on any other root, fail. -/
def analyze_complete_structure (value : Json) : Except AnalyzeError Json :=
  match value with
  | .obj o => do
      let res ← o.foldlM analyzeStep ([], [])
      .ok (mkObj [("$schema", .str "http://json-schema.org/draft-07/schema#"),
                  ("title", .str "ConversationState"),
                  ("type", .str "object"),
                  ("description", .str "Amazon Q CLI conversation state structure"),
                  ("properties", .obj res.1),
                  ("required", .arr (res.2.map .str))])
  | v => .error (.expectedObjectAtRoot v)

/-! ## SHA-256 (the `sha2` crate's `Sha256`), over `Nat` with explicit `% 2^32` -/

/-- Reduce to a 32-bit word. -/
def w32 (n : Nat) : Nat := n % 4294967296

/-- Rotate a 32-bit word right by `b` bits. -/
def rotr (b n : Nat) : Nat := w32 ((n >>> b) ||| (n <<< (32 - b)))

/-- Bitwise complement within 32 bits. -/
def wnot (n : Nat) : Nat := n ^^^ 4294967295

def smallSigma0 (x : Nat) : Nat := (rotr 7 x) ^^^ (rotr 18 x) ^^^ (x >>> 3)

def smallSigma1 (x : Nat) : Nat := (rotr 17 x) ^^^ (rotr 19 x) ^^^ (x >>> 10)

def bigSigma0 (x : Nat) : Nat := (rotr 2 x) ^^^ (rotr 13 x) ^^^ (rotr 22 x)

def bigSigma1 (x : Nat) : Nat := (rotr 6 x) ^^^ (rotr 11 x) ^^^ (rotr 25 x)

def chFun (x y z : Nat) : Nat := (x &&& y) ^^^ (wnot x &&& z)

def majFun (x y z : Nat) : Nat := (x &&& y) ^^^ (x &&& z) ^^^ (y &&& z)

/-- The 64 SHA-256 round constants. -/
def sha256K : List Nat :=
  [1116352408, 1899447441, 3049323471, 3921009573,
   961987163, 1508970993, 2453635748, 2870763221,
   3624381080, 310598401, 607225278, 1426881987,
   1925078388, 2162078206, 2614888103, 3248222580,
   3835390401, 4022224774, 264347078, 604807628,
   770255983, 1249150122, 1555081692, 1996064986,
   2554220882, 2821834349, 2952996808, 3210313671,
   3336571891, 3584528711, 113926993, 338241895,
   666307205, 773529912, 1294757372, 1396182291,
   1695183700, 1986661051, 2177026350, 2456956037,
   2730485921, 2820302411, 3259730800, 3345764771,
   3516065817, 3600352804, 4094571909, 275423344,
   430227734, 506948616, 659060556, 883997877,
   958139571, 1322822218, 1537002063, 1747873779,
   1955562222, 2024104815, 2227730452, 2361852424,
   2428436474, 2756734187, 3204031479, 3329325298]

/-- The eight 32-bit working variables of the compression function. -/
structure Hash8 where
  a : Nat
  b : Nat
  c : Nat
  d : Nat
  e : Nat
  f : Nat
  g : Nat
  h : Nat

/-- SHA-256 initial hash value. -/
def sha256H0 : Hash8 :=
  ⟨1779033703, 3144134277, 1013904242, 2773480762,
   1359893119, 2600822924, 528734635, 1541459225⟩

/-- One round of the compression function on constant/schedule pair `kw`. -/
def sha256Round (st : Hash8) (kw : Nat × Nat) : Hash8 :=
  let t1 := w32 (st.h + bigSigma1 st.e + chFun st.e st.f st.g + kw.1 + kw.2)
  let t2 := w32 (bigSigma0 st.a + majFun st.a st.b st.c)
  ⟨w32 (t1 + t2), st.a, st.b, st.c, w32 (st.d + t1), st.e, st.f, st.g⟩

/-- Extend the 16-word block by `k` more schedule words. -/
def extendLoop : List Nat → Nat → List Nat
  | ws, 0 => ws
  | ws, Nat.succ k =>
      let i := ws.length
      let w := w32 (smallSigma1 (ws.getD (i - 2) 0) + ws.getD (i - 7) 0 +
                    smallSigma0 (ws.getD (i - 15) 0) + ws.getD (i - 16) 0)
      extendLoop (ws ++ [w]) k

/-- Compress one 16-word block into the running hash. -/
def compressBlock (h0 : Hash8) (block : List Nat) : Hash8 :=
  let ws := extendLoop block 48
  let st := (sha256K.zip ws).foldl sha256Round h0
  ⟨w32 (h0.a + st.a), w32 (h0.b + st.b), w32 (h0.c + st.c), w32 (h0.d + st.d),
   w32 (h0.e + st.e), w32 (h0.f + st.f), w32 (h0.g + st.g), w32 (h0.h + st.h)⟩

/-- `count` big-endian bytes of `v`. -/
def toBytesBE : Nat → Nat → List Nat
  | 0, _ => []
  | Nat.succ k, v => toBytesBE k (v / 256) ++ [v % 256]

/-- A byte list packed into one natural number, big-endian, on top of the
accumulator `acc`: `packBytes 0 [0x12, 0x34] = 0x1234`. -/
def packBytes (acc : Nat) (l : List Nat) : Nat :=
  l.foldl (fun a b => a * 256 + b) acc

/-- SHA-256 padding (FIPS 180-4 §5.1.1) over the packed message: append
`0x80`, zero bytes until the length is 56 mod 64, then the bit length as
8 big-endian bytes.  Returns the number of 64-byte blocks and the padded
message, still packed big-endian. -/
def padPacked (len packed : Nat) : Nat × Nat :=
  let zeros := (119 - len % 64) % 64
  let tailBits := 8 * (zeros + 8)
  ((len + 9 + zeros) / 64,
   (packed <<< (8 + tailBits)) + (0x80 <<< tailBits) + ((8 * len) % 18446744073709551616))

/-- The 16 big-endian 32-bit words of block `i` (0-based) of a packed
padded message of `nblocks` blocks. -/
def blockWords (nblocks padded i : Nat) : List Nat :=
  (List.range 16).map (fun j => (padded >>> (32 * (16 * (nblocks - i) - 1 - j))) % 4294967296)

/-- Compress the blocks `i, i+1, ...` (with `fuel` blocks remaining) into
the running hash. -/
def hashBlocksAux (padded nblocks : Nat) : Nat → Nat → Hash8 → Hash8
  | 0, _, st => st
  | Nat.succ fuel, i, st =>
      hashBlocksAux padded nblocks fuel (i + 1) (compressBlock st (blockWords nblocks padded i))

def Hash8.toBytes (st : Hash8) : List Nat :=
  toBytesBE 4 st.a ++ toBytesBE 4 st.b ++ toBytesBE 4 st.c ++ toBytesBE 4 st.d ++
  toBytesBE 4 st.e ++ toBytesBE 4 st.f ++ toBytesBE 4 st.g ++ toBytesBE 4 st.h

/-- SHA-256 digest (32 bytes) of a byte message: pad the packed message
and compress block by block from the initial hash value. -/
def sha256Digest (msg : List Nat) : List Nat :=
  let np := padPacked msg.length (packBytes 0 msg)
  (hashBlocksAux np.2 np.1 np.1 0 sha256H0).toBytes

/-- Lowercase hex digit, as in Rust's `{:x}` formatting. -/
def hexDigitChar (n : Nat) : Char :=
  match n with
  | 0 => '0' | 1 => '1' | 2 => '2' | 3 => '3' | 4 => '4'
  | 5 => '5' | 6 => '6' | 7 => '7' | 8 => '8' | 9 => '9'
  | 10 => 'a' | 11 => 'b' | 12 => 'c' | 13 => 'd' | 14 => 'e' | 15 => 'f'
  | _ => '0'

/-- Two lowercase hex digits of a byte (`{:02x}`). -/
def byteToHex (b : Nat) : List Char := [hexDigitChar (b / 16 % 16), hexDigitChar (b % 16)]

/-- `format!("{:x}", hasher.finalize())`: each digest byte as two
lowercase hex digits. -/
def bytesToHexString (bs : List Nat) : String :=
  String.mk (bs.foldr (fun b acc => byteToHex b ++ acc) [])

/-- UTF-8 encoding of one character. -/
def charUtf8Bytes (c : Char) : List Nat :=
  let n := c.toNat
  if n < 0x80 then [n]
  else if n < 0x800 then [0xC0 ||| (n >>> 6), 0x80 ||| (n &&& 0x3F)]
  else if n < 0x10000 then
    [0xE0 ||| (n >>> 12), 0x80 ||| ((n >>> 6) &&& 0x3F), 0x80 ||| (n &&& 0x3F)]
  else
    [0xF0 ||| (n >>> 18), 0x80 ||| ((n >>> 12) &&& 0x3F),
     0x80 ||| ((n >>> 6) &&& 0x3F), 0x80 ||| (n &&& 0x3F)]

/-- UTF-8 bytes of a string (`str::as_bytes`). -/
def stringUtf8Bytes (s : String) : List Nat :=
  s.toList.foldr (fun c acc => charUtf8Bytes c ++ acc) []

/-- Hex SHA-256 digest of a string's UTF-8 bytes. -/
def sha256Hex (s : String) : String :=
  bytesToHexString (sha256Digest (stringUtf8Bytes s))

/-! ## Compact JSON serialization (`serde_json::to_string`) -/

/-- serde_json's escaping of one character inside a JSON string:
`"` and `\` get a backslash escape, control characters below 0x20 get
their short escape or `\u00XX`, everything else is passed through. -/
def escapeChar (c : Char) : List Char :=
  if c = '"' then ['\\', '"']
  else if c = '\\' then ['\\', '\\']
  else if c.toNat ≥ 0x20 then [c]
  else match c.toNat with
    | 8 => ['\\', 'b']
    | 9 => ['\\', 't']
    | 10 => ['\\', 'n']
    | 12 => ['\\', 'f']
    | 13 => ['\\', 'r']
    | n => '\\' :: 'u' :: '0' :: '0' :: byteToHex n

/-- A JSON string literal: quotes around the escaped contents. -/
def encodeJsonString (s : String) : String :=
  "\"" ++ String.mk (s.toList.foldr (fun c acc => escapeChar c ++ acc) []) ++ "\""

/-- The fractional digits of `rem/den`, up to `k` of them, stopping at an
exact zero remainder. -/
def fracDigits : Nat → Nat → Nat → List Char
  | 0, _, _ => []
  | Nat.succ k, rem, den =>
      if rem = 0 then []
      else hexDigitChar (rem * 10 / den) :: fracDigits k (rem * 10 % den) den

/-- Rendering of a JSON float.  An integral double prints as `N.0`,
matching ryu; a non-integral one is approximated by its decimal expansion
to 17 places (ryu's shortest-round-trip output is a floating-point
concern outside this embedding).  No float value is ever serialized in
this development: the structural analyzer's output contains only strings,
arrays and objects. -/
def renderFloat (q : ℚ) : String :=
  if q.den = 1 then toString q.num ++ ".0"
  else
    let sign := if q.num < 0 then "-" else ""
    let n := q.num.natAbs
    sign ++ toString (n / q.den) ++ "." ++ String.mk (fracDigits 17 (n % q.den) q.den)

/-- `serde_json::Number` rendering: integers in decimal (itoa), floats
via `renderFloat`. -/
def renderNumber : JNumber → String
  | .posInt v => toString v
  | .negInt v => toString v
  | .float q => renderFloat q

mutual

/-- `serde_json::to_string` (compact form) on a `Value`: object fields in
stored (sorted) order, no spaces. -/
def jsonToString : Json → String
  | .null => "null"
  | .bool true => "true"
  | .bool false => "false"
  | .num n => renderNumber n
  | .str s => encodeJsonString s
  | .arr l => "[" ++ jsonListToString l ++ "]"
  | .obj l => "\x7b" ++ jsonFieldsToString l ++ "\x7d"

/-- Comma-separated serialization of array elements. -/
def jsonListToString : List Json → String
  | [] => ""
  | [x] => jsonToString x
  | x :: y :: xs => jsonToString x ++ "," ++ jsonListToString (y :: xs)

/-- Comma-separated serialization of `"key":value` object fields. -/
def jsonFieldsToString : List (String × Json) → String
  | [] => ""
  | [kv] => encodeJsonString kv.1 ++ ":" ++ jsonToString kv.2
  | kv :: kv' :: rest =>
      encodeJsonString kv.1 ++ ":" ++ jsonToString kv.2 ++ "," ++ jsonFieldsToString (kv' :: rest)

end

/-- `serde_json::to_string(&Value)` as the `Result` the code sees: with
string keys throughout (`Value` objects always have string keys) the
serializer cannot fail, so the result is always `some`. -/
def to_string_result (v : Json) : Option String := some (jsonToString v)

/-- The body of `calculate_schema_hash` after serialization: hash the
serialized text, or the empty string if serialization failed
(`unwrap_or_default`), and render the digest in lowercase hex. -/
def calculate_schema_hash_serialized (s : Option String) : String :=
  sha256Hex (s.getD "")

/-- `calculate_schema_hash` (main.rs:278-283): SHA-256 hex digest of the
compact serialization of the schema value. -/
def calculate_schema_hash (schema : Json) : String :=
  calculate_schema_hash_serialized (to_string_result schema)

/-! ## The git subprocess and the capture orchestrator -/

/-- The observable outcome of running `git rev-parse HEAD`: whether the
process could be spawned at all, its exit status, and its standard output
decoded as UTF-8 (`none` models output that is not valid UTF-8). -/
structure GitResult where
  spawn_ok : Bool
  success : Bool
  stdout_utf8 : Option String

/-- The failure modes of `get_git_commit`. -/
inductive GitError where
  | ioError
  | invalidUtf8
  | notSuccess

/-- `str::trim`: drop leading and trailing whitespace characters. -/
def rustTrim (s : String) : String :=
  String.mk (((s.toList.dropWhile Char.isWhitespace).reverse.dropWhile Char.isWhitespace).reverse)

/-- `get_git_commit` (main.rs:266-276): propagate a spawn failure, then on
a successful exit decode stdout as UTF-8 (propagating a decode failure)
and trim it; on an unsuccessful exit fail with
"Failed to get git commit". -/
def get_git_commit (r : GitResult) : Except GitError String :=
  if !r.spawn_ok then .error .ioError
  else if r.success then
    match r.stdout_utf8 with
    | some s => .ok (rustTrim s)
    | none => .error .invalidUtf8
  else .error .notSuccess

/-- Rust's byte slice `&s[..n]`: `some` prefix when byte offset `n` falls
on a character boundary within the string, `none` when the slice would
panic (offset past the end or inside a multi-byte character).  A
character occupies `(charUtf8Bytes c).length` bytes. -/
def byteSlicePrefixAux : List Char → Nat → Option (List Char)
  | _, 0 => some []
  | [], Nat.succ _ => none
  | c :: cs, Nat.succ n =>
      if (charUtf8Bytes c).length ≤ n + 1 then
        (byteSlicePrefixAux cs (n + 1 - (charUtf8Bytes c).length)).map (fun l => c :: l)
      else none

def byteSlicePrefix (s : String) (n : Nat) : Option String :=
  (byteSlicePrefixAux s.toList n).map String.mk

/-- The captured timestamp, by its two renderings used in the code:
`to_rfc3339` for the document and `format("%Y%m%d_%H%M%S")` for the
filename. -/
structure Timestamp where
  rfc3339 : String
  fileStamp : String

/-- Insertion of the three `_generation_*` metadata fields
(`as_object_mut` + three `BTreeMap::insert`s, in source order); on a
non-object schema `as_object_mut` is `None` and nothing is inserted. -/
def addGenerationMetadata (schema : Json) (method now_rfc3339 noteText : String) : Json :=
  match schema with
  | .obj l =>
      .obj (insertSorted "_note" (.str noteText)
             (insertSorted "_generation_timestamp" (.str now_rfc3339)
               (insertSorted "_generation_method" (.str method) l)))
  | v => v

/-- `generate_schema_from_actual_type` (main.rs:123-148), with its ambient
inputs explicit: `serialized` is `serde_json::to_value` of the test
instance (the canned literal deserialized into the external
`ConversationState` and re-serialized), `now` is the
`chrono::Utc::now().to_rfc3339()` call at the metadata step. -/
def generate_schema_from_actual_type (serialized : Json) (now : String) :
    Except AnalyzeError Json := do
  let schema ← analyze_complete_structure serialized
  .ok (addGenerationMetadata schema "type_introspection" now
        "Generated through type introspection without upstream modifications")

/-- `generate_schema_with_schemars` (main.rs:97-119): `base` models the
external `schemars::schema_for!(SchemaConversationState)` output
converted to a JSON value (`serde_json::to_value` on a schema cannot
fail), to which the metadata fields are added. -/
def generate_schema_with_schemars (base : Json) (now : String) :
    Except AnalyzeError Json :=
  .ok (addGenerationMetadata base "schemars_complete_introspection" now
        "Generated using schemars with copied types + JsonSchema derives")

/-- Outcome of one `capture_schema` run: a propagated error, a panic
(slicing out of range in the report), or completion with the written
file's name, the written document and the printed report lines. -/
inductive CaptureResult where
  | error (e : AnalyzeError)
  | panicked
  | ok (filename : String) (output : Json) (report : List String)

/-- `capture_schema` (main.rs:45-93) as a function of its ambient inputs:
the CLI arguments, the schemars reflection output, the serialized test
instance, the generator's clock reading `genNow`, the orchestrator's
clock reading `now`, and the git subprocess outcome.  Directory creation
and the file write are modelled as succeeding, recorded by the returned
filename and document (the file holds the pretty-printed document).  The
report's `&schema_hash[..12]` and `&commit[..8]` byte slices panic when
out of range; a panic is `CaptureResult.panicked`. -/
def capture_schema (note : Option String) (use_schemars : Bool)
    (schemarsBase serialized : Json) (genNow : String) (now : Timestamp)
    (git : GitResult) : CaptureResult :=
  let schemaRes :=
    if use_schemars then generate_schema_with_schemars schemarsBase genNow
    else generate_schema_from_actual_type serialized genNow
  match schemaRes with
  | .error e => .error e
  | .ok schema =>
    let git_commit := (get_git_commit git).toOption
    let schema_hash := calculate_schema_hash schema
    let note_text := note.getD "Schema capture"
    let output := mkObj
      [("timestamp", .str now.rfc3339),
       ("git_commit", match git_commit with | some c => .str c | none => .null),
       ("schema_hash", .str schema_hash),
       ("note", .str note_text),
       ("schema", schema)]
    let method_suffix := if use_schemars then "_schemars" else ""
    let filename :=
      "tools/schema-tracker/schemas/conversation_schema_" ++ now.fileStamp ++
        method_suffix ++ ".json"
    match byteSlicePrefix schema_hash 12 with
    | none => .panicked
    | some hash_prefix =>
      let base_report :=
        ["✅ Schema captured: " ++ filename,
         "   Hash: " ++ hash_prefix,
         "   Method: " ++ (if use_schemars then "schemars (complete types)"
                           else "hybrid (type introspection)")]
      match git_commit with
      | some commit =>
        match byteSlicePrefix commit 8 with
        | none => .panicked
        | some commit_prefix =>
          .ok filename output
            (base_report ++ ["   Commit: " ++ commit_prefix] ++
              (if note.isSome then ["   Note: " ++ note_text] else []))
      | none =>
        .ok filename output
          (base_report ++ (if note.isSome then ["   Note: " ++ note_text] else []))

/-- Modelled from the spec: the structural path analyzes "one canned
example instance via deserialization of a fixed JSON literal"
(`create_test_conversation_state`, main.rs:151-173).  The external
`chat_cli::cli::ConversationState` type — an opaque data contract not
part of this tool — carries the literal through
`serde_json::from_value` and back through `serde_json::to_value`; the
round trip is modelled as the identity, so the serialized test instance
is the literal itself (fields in `BTreeMap` order). -/
def test_instance_serialized : Json :=
  mkObj [("conversation_id", .str "schema_analysis_test"),
         ("next_message", .null),
         ("history", .arr []),
         ("valid_history_range", .arr [.num (.posInt 0), .num (.posInt 0)]),
         ("transcript", .arr []),
         ("tools", mkObj []),
         ("context_manager", .null),
         ("context_message_length", .null),
         ("latest_summary", .null),
         ("model", .null),
         ("model_info", .null),
         ("file_line_tracker", mkObj [])]


/-! ## Derived notions used by the analysis -/

/-- Strip one key from an object document: used to state that two schema
documents agree "apart from" a designated field. -/
def removeKey (j : Json) (k : String) : Json :=
  match j with
  | .obj l => .obj (l.filter (fun kv => kv.1 != k))
  | v => v

/-- The schema fragment `analyze_field_structure` produces, as a value
(the function never returns an error; `afs_ok` below). -/
def afsVal (v : Json) (name : String) : Json :=
  match analyze_field_structure v name with
  | .ok s => s
  | .error _ => .null

/-- The UTF-8 byte length of a string (`str::len`). -/
def utf8Len (s : String) : Nat := (stringUtf8Bytes s).length

/-- A lowercase hexadecimal digit: `0`-`9` or `a`-`f`. -/
def isLowerHexDigit (c : Char) : Bool :=
  (48 ≤ c.toNat && c.toNat ≤ 57) || (97 ≤ c.toNat && c.toNat ≤ 102)

/-- A second definition following the spec's words, for comparison with
the code's `is_i64() || is_u64()` test: the spec calls a number
"integral" when its mathematical value is an integer, which holds for
both integer representations and for an integral-valued float such as
`2.0`. -/
def integralPerSpec : JNumber → Bool
  | .posInt _ => true
  | .negInt _ => true
  | .float q => q.den == 1

/-- The end-to-end example input of the spec:
`{"a": "x", "b": null, "c": [1,2]}`. -/
def c4_input : Json :=
  mkObj [("a", Json.str "x"), ("b", Json.null),
         ("c", Json.arr [Json.num (.posInt 1), Json.num (.posInt 2)])]

/-- The fragment the analyzer produces for field `a` of `c4_input`. -/
def c4_props_a : Json :=
  Json.obj [("description", Json.str "String field: a"), ("type", Json.str "string")]

/-- The fragment the analyzer produces for field `b` of `c4_input`. -/
def c4_props_b : Json :=
  Json.obj [("anyOf", Json.arr [Json.obj [("type", Json.str "null")],
              Json.obj [("description", Json.str "Optional field - type determined at runtime")]]),
            ("description", Json.str "Optional field: b")]

/-- The fragment the analyzer produces for field `c` of `c4_input`. -/
def c4_props_c : Json :=
  Json.obj [("description", Json.str "Array field: c"),
            ("items", Json.obj [("description", Json.str "Integer field: array_item"),
                                ("type", Json.str "integer")]),
            ("type", Json.str "array")]

/-! ## The two concrete capture runs used for the hash-dependence analysis

Two structural-path runs on the canned instance, one second apart.  The
timestamps have the shape `chrono::Utc::now().to_rfc3339()` produces. -/

/-- Generation timestamp of the first run. -/
def ts1 : String := "2025-08-20T12:00:00.000000000+00:00"

/-- Generation timestamp of the second run. -/
def ts2 : String := "2025-08-20T12:00:01.000000000+00:00"

/-- The schema document the structural path produces on the canned
instance, as a function of the embedded generation timestamp (the one
place the two runs differ). -/
def schemaLit (ts : String) : Json := Json.obj [("$schema", Json.str "http://json-schema.org/draft-07/schema#"), ("_generation_method", Json.str "type_introspection"), ("_generation_timestamp", Json.str ts), ("_note", Json.str "Generated through type introspection without upstream modifications"), ("description", Json.str "Amazon Q CLI conversation state structure"), ("properties", Json.obj [("context_manager", Json.obj [("anyOf", Json.arr [Json.obj [("type", Json.str "null")], Json.obj [("description", Json.str "Optional field - type determined at runtime")]]), ("description", Json.str "Optional field: context_manager")]), ("context_message_length", Json.obj [("anyOf", Json.arr [Json.obj [("type", Json.str "null")], Json.obj [("description", Json.str "Optional field - type determined at runtime")]]), ("description", Json.str "Optional field: context_message_length")]), ("conversation_id", Json.obj [("description", Json.str "String field: conversation_id"), ("type", Json.str "string")]), ("file_line_tracker", Json.obj [("description", Json.str "Object field: file_line_tracker"), ("type", Json.str "object")]), ("history", Json.obj [("description", Json.str "Array field: history"), ("items", Json.obj [("description", Json.str "Array type - items unknown from empty array")]), ("type", Json.str "array")]), ("latest_summary", Json.obj [("anyOf", Json.arr [Json.obj [("type", Json.str "null")], Json.obj [("description", Json.str "Optional field - type determined at runtime")]]), ("description", Json.str "Optional field: latest_summary")]), ("model", Json.obj [("anyOf", Json.arr [Json.obj [("type", Json.str "null")], Json.obj [("description", Json.str "Optional field - type determined at runtime")]]), ("description", Json.str "Optional field: model")]), ("model_info", Json.obj [("anyOf", Json.arr [Json.obj [("type", Json.str "null")], Json.obj [("description", Json.str "Optional field - type determined at runtime")]]), ("description", Json.str "Optional field: model_info")]), ("next_message", Json.obj [("anyOf", Json.arr [Json.obj [("type", Json.str "null")], Json.obj [("description", Json.str "Optional field - type determined at runtime")]]), ("description", Json.str "Optional field: next_message")]), ("tools", Json.obj [("description", Json.str "Object field: tools"), ("type", Json.str "object")]), ("transcript", Json.obj [("description", Json.str "Array field: transcript"), ("items", Json.obj [("description", Json.str "Array type - items unknown from empty array")]), ("type", Json.str "array")]), ("valid_history_range", Json.obj [("description", Json.str "Array field: valid_history_range"), ("items", Json.obj [("description", Json.str "Integer field: array_item"), ("type", Json.str "integer")]), ("type", Json.str "array")])]), ("required", Json.arr [Json.str "conversation_id", Json.str "file_line_tracker", Json.str "history", Json.str "tools", Json.str "transcript", Json.str "valid_history_range"]), ("title", Json.str "ConversationState"), ("type", Json.str "object")]

/-- The serialized first schema packed into one big-endian natural. -/
def packed1 : Nat := 100236389151317298540051749654428377368598551431826144584154317293473597693785526567123057678514196352389279407716155848119268614007703256829253835566461130624659852280606559951312947593451743859237392797153557339835270800356260234971260248590584874917506876774146981215617658801809650722542104569319910728248733076276826680408741173302842588095608934264943881906140726042018243311923958382367801339783728355686888316277886101689067711540351756445889033947110243362092260289919983306731022985926545502185927690937578309628944548675138606760365857775161260179033025215645043263299900313084150389701285832179345824031765273664125897967140671811965415692254094253371653548924551768864379514094342971870404149203514377934644901179840264084245135283173364507316444613235016704529895694231589249096950060760418651728708036597143549247292726926250531797665595097170036076531349473456155962383020332987501559402977002075696616759364075612107558327828497799310644565264597461670183215719759028732366537813763239614341960536625918916610621164767903340764216906861600422103926798060789413260114345810753334007731493558099117987735084635330893143429207863638853238002285833546578790693829331295809414977870715825171143417591941194394035365492159168928619773575888136072287078246263655858476418453433800691380996524349643760864289531440878357351277663833459069713388622272259309487685455991995502352728245032145022991517772545079352467753004936502638376518548085813786603428888221019436881583117554414548138395592711809572043650610327043398653514243081256853863137700821486957897957054896868171441586730642302236423525805669907867489641016279195063982243343461741229714268565633941598493718737430616348981501465653522523249544265215621605526873960962094264827763536295778558931390230883704551733326345760562930711468094608688246451445784778346522861477420936624979978625973008574996811830370753157050991739019852193866203385984918313526269847368812186642074011818747865198947206889999481042746948962593378441471129620776958459307604315971138973820143574907568485191325966110767916540780776345346441052565199715490664640280498607980009922314162100807554865539103429157351510381228510945205685453354829665130360541566173466741214434809643251500619534498876705859762421014502179803535623767189410025702743812962180909321007366341089381324181187581937066037468129467006644428819044404725232431098951734608626840602108086165020498920942686609395774706122190863917019543667721786395879288810564891978810474775378345688077476516731002968151578605029190311897662047251356261932874804963445860797361997354977125067736874385730288384338316076128617733050648902031292211997646019885090981771781686790597212938094032860143132295260301547813782227853329490329620062449935214773072818665801090915714692786491008116966612060382528583660609299987138805325778207795504741516575417972962882812166949212783114907490063777142672543864576250199962495222594123957541795472327439374798672194081522918418084574156491246150870583072259213030376155878778262100185002241961906465668847620899529506324241938798508673576486588465944124058796195265855292523621882277796197576293780165873648631838338730508645062015681723137762696093784509503440358829633352837510335626121340324631876603456170638869284747410961756854985914516938755729776486305385738523720233254845820359084146663632402529421604751732457488046810297724126904390295972040735281937872573605074077030432124627245786750270551786763181888673456187470348848886143014543715410331773940447631061875381012176023907303618575912122607210563064490620469965490182050353630330684884506217050255253911780429130287685077109273973253579749884013092483646864953382236179581578427485749615224552099715633808604843021002222347834852268077410213287471824399198599515663113557707444426650598491845764551855593284742087068649168395901279828647188840443955502641026928694377102133160871105687003934337686647337711077378176901691446015267604277755571710140958944758593561988812476330285280149773371508720818890321568501780411949227875516327120318849267882545748510208138342251079712453363099327247055532807726844310789675101775779049092040840690117138237619100451745812888564447024997172419949679264755824983251600407526950924660535559625774500109126696305349096077455261138936050650961242431917083008126013437274920880439888245208671761352683959357777068524009098938161432261465889170844945111970961182921002443268195350971776121565219965463699617787577108806761269060694443641907590807905925028149572461913868416649424712895249100174292992711855630172814285840441863486326078469452156110352906292801576396598691540744609892800186772096583319079696120020137105615454770254719429201230112515253462112923037856832126739492040556890089866225915831226432561076884186556714424108274397549867460912872161434333241427574710447659622390236154901254188766461995123316837658138445810369627877024381

/-- The serialized second schema packed into one big-endian natural. -/
def packed2 : Nat := 100236389151317298540051749654428377368598551431826144584154317293473597693785526567123057678514196352389279407716155848119268614007703256829253835566461130624659852280606559951312947593451743859237392797153557339835270800356260234971260248590584874917506876774146981215617658801809650722542104569319910728248733076276826680408741173306588300587841675509235545518952613432887991907750390887216283480888421717672421826058516542552646522922943241643729365498707406947056242986708608388189273983438528275713253472805053274325619957143252756415367244074741185003977787720654648816824318672256056454910591164251449410264770397850450947180214374154385259705318415802779558080712087417056398229647971598846872359551382026677297830838019751976689861589297061098401560111369337510925656221719592754872758630865866510572054400375068882833908868031275600159781455273300840298988061369751893045559062498903648166763897913207852228632437315678897714020355445509853036490334964263742601380503234665148581019463130964541182318031611744009719294605080672391765658003900486606342761177168890179801829755541380074412938503858719738321187807220173353061286768836336931772198267145163193782754450995440076186488209397768876120927308205557207080584882515477156036897489894430842520254070374031314421697458951195090755487200011594567530334094831169929798843252390681934282685255281400083313624676435635632697165845073317812588313722157791032110661422915609374506037003512804244141052998597403630901410767571093327590586244378940273586969972051827872256507329032314184016967727638364885606209312512538593832719315141914069920190566231956919387704513938921324929584792234846590782390297911568988645218116047409196807921727599312448885332682370930765254769277983080057766448799967563706079876704783157925581715239073701085280094079357105840161184974769658217476754780550210403902532035961490507896584563564837389535934175794290185586575514901039051618082269764816258665924337434913572750634547636787447316002667296996791797963505794465829003608327486194101537776631084658055279571579786590012997419060279606937728708716463742988181584700725541921054554577420174412148426905776105833830678826725470046246596086286340028296142280058086566274177006191330524725183813025470992587226416774761149719716401194701396485392509947189427782221579606967504468773286670215844187434702848639348538602785826373604456369576318176188208365746599223061486178569396044129114271509493007523637460212135724250584539799874117992524894809586899092926770490800536389277673500977989016629662367079089562735838291995809842391761564428796780183743735772073507452425304032377482482984180007180587458674602754928564001310949067011790126898609228948470149115053595518574343664316255972899377590261750309034835276308568679245468805749915882514317088068418692331700534275618537468613725044383686684326032193851219585041712189142477000684006478857335729254152036630573513842902754179427624113178883438298186857775412425935512874797742158531409009465187641805634590901730661603345050409708360620754704999524854525413782882732815285523897111937389773070050446533790178283073601645185305957263784992753770083439452797865886102418794386239153326775570557886570029810634568078940344330864228780196766997684623673123853855328631372629596610057705598896907247111022818441675533940919199474615022828530175168102648844027868417346678615259194568086765123235282376709633164830049509356693853895205162029512608144569511852850701827265777227518309099075600580377545482102864574523367260831805135187641891732730143331579808357072767658579031787063938886088413912181873753849451958871513011694022075914055845353495803873157781591657524566536185271229219277697203831157295868515092096814158889608308309992122035197402064903542926949629561613317496879226184545584529283816211321682669378276659104628691617918932880932914696525360775141450917272168156057114727820658125771157994034938249708596543267979718817552867295118715564864063260513925320911405067235147933499363321106651535820064349147247020226449093571958194246275941043257789386016456921225085581547817894944683553789624874901515531170560336806688926488418461847178066233868712337376546116451665069369931513694328657784963981613221685231144769831951295106258153632202136624636823905818135953811550603287299536221019441426183726054462144942171986975104247467399444974445973838250403121789291832389425058346765796593991447647358493095803364308310915612290022237122228475345814301547723752696179757741380607616813475886698007276058784745354878407494843416004803190601608740822333263367571012543721624271784450762212619969787457628433673916876392779637117454349412514378668478757860900757744649754229998030958545077638091005263485237838573897808344061259531714081358754208738567502776299818702835039089425034120173549086618057705102779213447300066947145305880822903385638406544182579311767239203141251768957


/-- The padded first message: `padPacked 2029 packed1`. -/
def padded1 : Nat := 572248620565577289855759421764889967529895995962239774606254091870190942652124407317973076941309069141126781450142634439644375344933030283633924989404967140620914316036562952292117720920202375584983058532894122595887531211614485055854208580877063038391857379037644124786168647343170398126176168369956046435562806402501955620803395780072691717773804208619710532640121484342364795637954416162759227046100786115888490176261768227013037004992500680073829114932751627871850365794702787263151539454068940725606645657610954046957610557846680079901734253403347968333541205563051947063536542392746972205501964752077167617740567354485850564413849770507148813186500151352032383840209454732805278461613652590723139544194880751251933396723500500732645170696645918892521985078309042151540226660498446024887302240655084164685528378215928864842786357919772315941242447118071026145102297145720024450095396643372084030274566176952097558233897344134838157603602672008610504258499355121850450182976245080037548295354918783046664420720418381638539315153039497095121106253332302898189273204077558387909818915247840484964925611643817027864339948852684951321944252521641158922469251351196677335636365202777293366172438513832544896144218956436066073765993984620410177447963691867728105841538739913777991167282966569944460436449021106802423453827282143715190810667108130364815757227398292190509697532585767277286857799634634959143039898797649533263233216542740792650445531145764938235162821226642096746612638004308865363614742401807575182950894319966818393649505285044269857586123465921783998722473134353025635088122699226032254262857937590174709516397031112062667380877922265911978964406506231565368697207625869430351265204854190594813604938527239618961390595761473131491884326858891239866538094827445038011789021339301039024780035353438688047954099330633268435315431320865622554996508630731327268406724317541510161713335006729470522585509728829204369578739170216986827311338111978492077174734275315929808676425607876039343774546039102094720597727787301652639338482258200374474206047667451121994289370391162806845166717163704326247040799585308377059795920983198125379127533211250871636233339925042013164769850322984271370393263058154418931690047034344625802171419328826654141330642074372775494635576099052176404048868267985464381661319824923646904291631437846990461827365748313642421565502101279186386635926207625301692461574104309735129053915943213132986754453654097830121234812025595801276689809729537592062469340385176192766778311435829787661674412297827711341048123706730313039506975568833984497920207340736683248252954810576149553527772464214460991009489137834277394823085721194062602155614510811717162582500581585201593119430751179191066787442300906236533987810733575791657629199703711092063966908109670582689156637076571127710297680986405292906308129855884368153582060504548412700598026925568943359566682982196224718910022709140575084679022325096721029228593015393150600595998276816010637065179813096676588667153117976561911376824511413634383733442154690066292304729886452617709376511545399606046640765107045655843328916199193299899508539113148512483750652593411052294331958516931897153143118440541585431371216731602063220708450793092019857745583910423879225959025579782775426408853531119753644300426668597861290343592210400604152948444180778758569709327274683159779522860847025619414859825490730740090300618792450153287829554308059087208049862234517468382665988368906254766746319410244238119814449187944526011948873893537124607396448974161626448085150018336033518148738132954678634802255272453252596388441855328582374843327502186241130423564839462529859218952189817283404656125457073390578514199471717620731035610807869696904983678404511606394635477911991851143536084402120587845051818151939297336263808171977614570205849470992880635643445863948338838007893953211473955788460297507304337801283629769931373493686975064983006140796344160449536248192101393054538055640340565628987422461535610628858332523444181998299062024540506895478564079296823207254981889487501520255018386236195074395824671034336914709927103386668010375658682419421413604028190430426936308536466546812490386029888060133051983975178436280579505060346827667573786980531877227475883546745919841582236541370365515668618667890509828043419170576632340989808719748025857289069839928692239721381967954693145458215876106510564122524841627549444168311803987595996466158100376202619372558394793882092496681355796985104792367520053833659426575517624694485279725056060189424422585718346719345827664302226622639171162411944186667897581679762515309354046868082372972952567786840812950494556540860410005527933604705061351027503280653503229996552646400585697389934500028252555173576530837161448950302392150775415530244747403845257620959903123365842351172709147250281565084132791323326886948304823231378417678566614950418692212794369143706141016680497524831524570036758651054926233598903012739268456

/-- The running hash states of the first message, after each of its 32 blocks. -/
def st1_1 : Hash8 := ⟨1072362837, 1385460280, 3702821509, 3452396813, 2314134532, 3247429760, 2413298945, 1038141564⟩
def st1_2 : Hash8 := ⟨941518305, 1052311062, 787842004, 1465326086, 2994800025, 3773693776, 415001357, 1433500721⟩
def st1_3 : Hash8 := ⟨259130264, 501364455, 867938153, 1285809889, 246559217, 1939103860, 1587784805, 3289026466⟩
def st1_4 : Hash8 := ⟨53662075, 2967206106, 1668940122, 43088577, 1690093521, 3879730318, 2284673209, 3604157059⟩
def st1_5 : Hash8 := ⟨3944989798, 3372327826, 1551239412, 2558051071, 2066950951, 2988758859, 3344022443, 945964763⟩
def st1_6 : Hash8 := ⟨4224932461, 603323503, 4241843239, 3674256091, 162477244, 1131410818, 2449656831, 3097619423⟩
def st1_7 : Hash8 := ⟨2655003684, 1403852294, 3108836885, 4058966647, 872706375, 3562109990, 2264342708, 1235070425⟩
def st1_8 : Hash8 := ⟨2267856752, 2891192571, 4294590336, 3261170685, 2112850749, 680665597, 1487445222, 177292976⟩
def st1_9 : Hash8 := ⟨3292714280, 1750818623, 2779464733, 876540957, 663281744, 581054537, 2414827185, 4264234111⟩
def st1_10 : Hash8 := ⟨1105326691, 1138995088, 3325193430, 2574771182, 2876688034, 1897029947, 2783083064, 4057634426⟩
def st1_11 : Hash8 := ⟨2015358989, 748774028, 662631259, 1627118607, 2266585457, 3044178125, 4094896219, 3332162025⟩
def st1_12 : Hash8 := ⟨4060042169, 2774929726, 2957522858, 3634107547, 2576250722, 2046234167, 448506408, 1570272410⟩
def st1_13 : Hash8 := ⟨4012990578, 1647070206, 560650088, 742234855, 2585716746, 494897594, 2830674515, 2902605937⟩
def st1_14 : Hash8 := ⟨2633358873, 2722491954, 975916736, 2924825183, 71779202, 1333967453, 1344016892, 363183857⟩
def st1_15 : Hash8 := ⟨1610236980, 1712189664, 414412153, 566142844, 1279593196, 1945848007, 29605860, 2955911794⟩
def st1_16 : Hash8 := ⟨1987422934, 1482283417, 2469738051, 1871577739, 960533228, 2611774062, 4142423816, 2285770288⟩
def st1_17 : Hash8 := ⟨708085887, 3586883843, 538321931, 2284722203, 2001589619, 266950741, 2046865904, 3123115897⟩
def st1_18 : Hash8 := ⟨871013081, 186529992, 2568301248, 348897195, 2049188311, 3564539858, 1401494883, 1098468217⟩
def st1_19 : Hash8 := ⟨3505143084, 2021675097, 3336689534, 655942010, 4294164141, 3925040364, 3242480050, 554197148⟩
def st1_20 : Hash8 := ⟨3085457561, 137269256, 187451026, 3657154007, 1847646082, 2752751728, 1317126708, 1101089021⟩
def st1_21 : Hash8 := ⟨3733603431, 3722170965, 1019659520, 2959346260, 2400546770, 2111920140, 1282397562, 133707829⟩
def st1_22 : Hash8 := ⟨3040420057, 854199727, 2527741685, 2190445668, 383306320, 2389811857, 452095617, 90820338⟩
def st1_23 : Hash8 := ⟨1006943982, 3929994693, 3096170329, 2911545695, 4122855456, 3025902242, 2089397827, 2624594269⟩
def st1_24 : Hash8 := ⟨650097686, 1016729851, 2387258001, 928790626, 2868912905, 2869038733, 185419498, 4285221398⟩
def st1_25 : Hash8 := ⟨2190220766, 1375881087, 2608875630, 4065446502, 2830217665, 1609584211, 4141582071, 522411504⟩
def st1_26 : Hash8 := ⟨6179230, 3016923604, 3075761907, 1763006551, 1432157823, 19526198, 1349465984, 2682040282⟩
def st1_27 : Hash8 := ⟨39783666, 3058157536, 1487686410, 2072380611, 1986343574, 2061750348, 3231446449, 1632169719⟩
def st1_28 : Hash8 := ⟨2786944036, 2492190897, 637538373, 4168373020, 1723565728, 1215667813, 2193246725, 4038342208⟩
def st1_29 : Hash8 := ⟨3291467240, 64730274, 344396292, 515968706, 399882054, 2577964450, 1912440048, 3963457165⟩
def st1_30 : Hash8 := ⟨652583013, 1899944483, 3963782849, 285493453, 1325195476, 3127459083, 549626362, 703626430⟩
def st1_31 : Hash8 := ⟨1962976867, 3379361681, 3120227319, 2799278494, 1574805545, 1599382595, 2801499335, 3377297818⟩
def st1_32 : Hash8 := ⟨4099700962, 4118594125, 676513735, 720256195, 1829886354, 2128387385, 1916760431, 828389011⟩

/-- The padded second message: `padPacked 2029 packed2`. -/
def padded2 : Nat := 572248620565577289855759421764889967529895995962239774606254091870190942652124407317973076941309069141126781450142634439644375344933030283633924989404967140620914316036562952292117720920202375584983058532894122595887531211614485055854208580877063038391857379037644124786168647343170398126176168369956046435562806402501955620803395780094075955822120491072685120573077294449052714703092436140636705315658654636988629229495127574888923549626777934827633485620098124298891933352019634535816796222265919385999343663388561884923645343808728336688028683361889754083450725029753115811847633740008215212859328154274330652964423397164525469995212600286143216581266348604589077337863398817996932214318300230376739275378655485827194123358931991883567212610809907726874537045040531610977924022626378255294216902726941522717756131864556029728000602531913675655971814591266608279845805115902851341348104217399429443639848626610285125223912377971135962444256935754584294463696298591569060936009046049676397398324533079111911973149523825092173860506614372526258390160049780292930395338485868403129817213083618715084798365968516088137808099192273543767747235628928331058137020995951974491510110447369096091599880723158498734201715778342569893013143993100090474266358832657018109980565525474602701158986960485483810126793006341426658606237260194790054420766301903719315894244261333946816828564373700751120660638966955693104264769119821889959284199135754969981614036445991201917692601247953005952024922474745453774745928778424488507947343770582816319432925987265902481765146090250628125033116138028492185906540282046628758224314790007719290881473968461232743945252079950228967660572258999623158021482299967068423201595120988579506764189839526689440369722339209303000670302767756556597134934627808178999152159061321826702258733806027483397486422849181451715084838877890992479003735906745895287451139599358556561715017084286999765337774164270135377942141549922770724415398872191118751112905253040776100896322373242952871792298442356679159641258976727801468212832915969737643713926540539813931529024920717503545828279298160458890598451833253577987998839376503427027828403033548450534221224896937821180715761175540931301178670071217947235929511738581727538325029157925586359120099579197174588128247101396686210938627933350719629651020492563628867312738371879462644849366745906037744565562752986712006200693451019053851296606167997586628899549277286149876975900219805245214001938669392836841106958286019657660874239070047847571007945342741588529628862103397115646710759080962062343361662206627531309422649490413636511161830875531432987881473349062219844812875585635824335120033579225027458050105571212294698244362901333301045581893113006267013115969866734924549797675154920705674084627511321557030970046581149031819392520117721470481072101830266897543660072823059018484523606705255925275831028564894396934448690918534963593647063580539331161794571204729039953075762014028597412030516771291089157461704788995362647915817916167883573372096347809969710727928919592481222559014296682699352971473063970990751799449502415098700373904237553000106491830110819046645521824621261155916665337964132134230056611062425968485936502437891668219641152842725442311264824461302985268776001961269725708896565190521803433682351347586592236537316591378698904527843635709611972956089366928464936031854374204439166400088134422361666255610044210926359867411678952601361388541923969203718558555845978432400954340528766573328017156645859702220994112839979095305874860657107450817012086748216030096888732118852139794981732492011840492385599304533257547216990391675357134161357662945029184818967753800928836917280290004858861129855478421782802935882971176564296210630018736807586586785822778421094538593963337899933040124473867213526418735708545245704113980466403702077858362176276670038188192232953366303816635741293684702458937590627639795192265817095014357564365116116570346005719161460022352281975425043411405624119141322001220795658463847594196263574273875701940523243351362896896664748381974406630101421666685387873235102571606974623364070211272859620681748637891425360953934174577459559199350805946157294155550903059125905826140131058424434861172453038212238988652566837055715243390082590781731481347206547578773870134695960200713164080075872879388916515903595587560923097028530537425214274249643030976663176340149803940755138103591656723508971943900587618156381926522929423231844473769832548000152990056064222660080216132666718560982059193965270845070600644740956495924860220870821537238012726930634255923491476503072653245645860158237822729702198670595090660958953759380199440549922273288677664801671513009844568061429716697973134302449387061879611076354124415509351324961883579035881258930146203558222768024692813806555524083811118507800528752194269702433084143375358470357662980406151059098993856278211668004675014994887457528085029486412570217743259508872225401690044514152

/-- The running hash states of the second message, after each of its 32 blocks. -/
def st2_1 : Hash8 := ⟨1072362837, 1385460280, 3702821509, 3452396813, 2314134532, 3247429760, 2413298945, 1038141564⟩
def st2_2 : Hash8 := ⟨941518305, 1052311062, 787842004, 1465326086, 2994800025, 3773693776, 415001357, 1433500721⟩
def st2_3 : Hash8 := ⟨386084354, 3570107052, 3727816619, 3228842210, 1502783073, 2997156746, 3719032194, 918312427⟩
def st2_4 : Hash8 := ⟨2579583443, 1433500459, 3002104348, 3288155289, 2053671814, 3429195109, 4062567186, 3074607438⟩
def st2_5 : Hash8 := ⟨1724124698, 3785724364, 236213517, 173745191, 849550511, 2111866461, 2538012261, 2881898417⟩
def st2_6 : Hash8 := ⟨1642955288, 537928194, 3390175741, 3961370, 3197074519, 2212241656, 738281190, 1213048584⟩
def st2_7 : Hash8 := ⟨2512620011, 791266857, 1904681929, 3470417345, 2203794082, 2160825004, 708273760, 970356268⟩
def st2_8 : Hash8 := ⟨112214631, 3089080477, 4201098367, 1062750871, 1189395312, 901107070, 2442356307, 1464123933⟩
def st2_9 : Hash8 := ⟨2748209829, 422131393, 1913097982, 2438008062, 436920547, 3758659717, 1568856330, 2983113087⟩
def st2_10 : Hash8 := ⟨367620897, 483155822, 3241686403, 264237403, 1617144818, 2496446963, 3523484525, 4257476707⟩
def st2_11 : Hash8 := ⟨351481378, 2489329744, 2297536418, 3201480454, 81852285, 1612582378, 287998964, 3901870288⟩
def st2_12 : Hash8 := ⟨373277803, 2042371460, 1496740401, 2472578943, 3421766236, 3779333084, 2727052201, 2565022831⟩
def st2_13 : Hash8 := ⟨232261076, 3466461351, 4219024018, 1610918248, 2392148540, 2144718174, 3104100257, 3821586242⟩
def st2_14 : Hash8 := ⟨1017432198, 2117001268, 1999959505, 434190836, 1424837411, 1519081233, 1549045586, 2762245640⟩
def st2_15 : Hash8 := ⟨2647201394, 3690476700, 2537855443, 2945137995, 2424867452, 1596229773, 3283675769, 249885936⟩
def st2_16 : Hash8 := ⟨1127193797, 2794276728, 65682126, 2314497453, 613666870, 1694771382, 2392950706, 3355809426⟩
def st2_17 : Hash8 := ⟨639547789, 1961839272, 343634101, 4241021355, 2315220085, 368016666, 3804808314, 870825608⟩
def st2_18 : Hash8 := ⟨2949533856, 814713630, 1115471712, 1052865034, 2904746561, 837203315, 4074681302, 2042886987⟩
def st2_19 : Hash8 := ⟨4275601851, 3483211011, 1454626893, 1532025260, 3862444218, 2647816379, 835856830, 1682869866⟩
def st2_20 : Hash8 := ⟨3775384454, 1217516966, 3988192801, 1500893117, 1005240138, 1104309689, 2147305226, 185223628⟩
def st2_21 : Hash8 := ⟨3056520537, 70666262, 3050895599, 2354033990, 3945264436, 2929032126, 4021985991, 1456896482⟩
def st2_22 : Hash8 := ⟨3234588044, 3828615089, 4280086366, 2484270580, 1321068065, 4187568344, 702113989, 3799070404⟩
def st2_23 : Hash8 := ⟨4203074484, 153757092, 202897108, 3853523824, 1073837214, 3995173405, 1645455844, 2098066705⟩
def st2_24 : Hash8 := ⟨3590986927, 1905578819, 2080585126, 1051585052, 3878124788, 141858629, 2828697505, 3757215774⟩
def st2_25 : Hash8 := ⟨1165125555, 2795265776, 537309511, 2401869072, 4075316672, 2212748809, 239903927, 94063037⟩
def st2_26 : Hash8 := ⟨3639596027, 1264177538, 2574565076, 2121606884, 127026558, 1803783563, 2954391847, 1845418549⟩
def st2_27 : Hash8 := ⟨2460746858, 333648330, 3799001543, 2250429773, 2401581269, 1503399221, 140450711, 3375684607⟩
def st2_28 : Hash8 := ⟨2408458317, 2314769504, 207474797, 4096554283, 4067053715, 1303761127, 817873162, 3719428065⟩
def st2_29 : Hash8 := ⟨1104917475, 2048152130, 1963647337, 2801202454, 3817696580, 3868932061, 3941427186, 2495988093⟩
def st2_30 : Hash8 := ⟨3136798897, 3343813505, 1865230113, 1188245345, 926263506, 3004112830, 1354857490, 2686153063⟩
def st2_31 : Hash8 := ⟨4018139327, 1701892922, 1351997852, 1458243198, 984796793, 57509093, 3482334325, 2207732187⟩
def st2_32 : Hash8 := ⟨1341717339, 1345348867, 1759707191, 1126658764, 337511883, 3018082974, 990606738, 222049606⟩

/-! ## Supporting lemmas for concrete hash evaluation

The SHA-256 input for the captured schema is ~2KB; evaluating the hash in
one definitional reduction exceeds the elaborator's stack, so the packed
message is assembled piecewise: the serializer output is distributed over
string appends, each append's bytes are packed separately, and the packed
pieces are combined by shift arithmetic. -/

theorem packBytes_append (acc : Nat) (a b : List Nat) :
    packBytes acc (a ++ b) = packBytes (packBytes acc a) b := by
  simp [packBytes, List.foldl_append]

theorem packBytes_acc (l : List Nat) : ∀ acc : Nat,
    packBytes acc l = acc * 256 ^ l.length + packBytes 0 l := by
  induction l with
  | nil => intro acc; simp [packBytes]
  | cons b bs ih =>
      intro acc
      show packBytes (acc * 256 + b) bs = _
      rw [ih (acc * 256 + b)]
      have hb : packBytes 0 (b :: bs) = b * 256 ^ bs.length + packBytes 0 bs := by
        show packBytes (0 * 256 + b) bs = _
        rw [ih (0 * 256 + b)]
        ring_nf
      rw [hb]
      simp [List.length_cons, pow_succ]
      ring

theorem packBytes0_append (a b : List Nat) :
    packBytes 0 (a ++ b) = packBytes 0 a * 256 ^ b.length + packBytes 0 b := by
  rw [packBytes_append, packBytes_acc]

theorem foldrBytes_append (l1 l2 : List Char) :
    (l1 ++ l2).foldr (fun c acc => charUtf8Bytes c ++ acc) [] =
    l1.foldr (fun c acc => charUtf8Bytes c ++ acc) [] ++
      l2.foldr (fun c acc => charUtf8Bytes c ++ acc) [] := by
  induction l1 with
  | nil => simp
  | cons c cs ih => simp [ih]

theorem stringUtf8Bytes_append (a b : String) :
    stringUtf8Bytes (a ++ b) = stringUtf8Bytes a ++ stringUtf8Bytes b := by
  show ((a ++ b).data.foldr _ _) = _
  rw [String.data_append]
  exact foldrBytes_append a.data b.data

/-! ## The concrete capture runs: serialization, packing and digests -/

theorem schemaLit_ok1 :
    generate_schema_from_actual_type test_instance_serialized ts1 =
      .ok (schemaLit ts1) := by rfl

theorem schemaLit_ok2 :
    generate_schema_from_actual_type test_instance_serialized ts2 =
      .ok (schemaLit ts2) := by rfl

set_option maxRecDepth 200000

theorem len1_eq : (stringUtf8Bytes (jsonToString (schemaLit ts1))).length = 2029 := by
  simp only [schemaLit, jsonToString, jsonFieldsToString, jsonListToString,
             stringUtf8Bytes_append, List.length_append]
  rfl

theorem len2_eq : (stringUtf8Bytes (jsonToString (schemaLit ts2))).length = 2029 := by
  simp only [schemaLit, jsonToString, jsonFieldsToString, jsonListToString,
             stringUtf8Bytes_append, List.length_append]
  rfl

set_option exponentiation.threshold 4000

theorem pack1_eq : packBytes 0 (stringUtf8Bytes (jsonToString (schemaLit ts1))) = packed1 := by
  simp only [schemaLit, jsonToString, jsonFieldsToString, jsonListToString,
             stringUtf8Bytes_append, packBytes0_append, List.length_append]
  rfl

theorem pack2_eq : packBytes 0 (stringUtf8Bytes (jsonToString (schemaLit ts2))) = packed2 := by
  simp only [schemaLit, jsonToString, jsonFieldsToString, jsonListToString,
             stringUtf8Bytes_append, packBytes0_append, List.length_append]
  rfl


/-- Stepping lemma for the block loop. -/
theorem hashBlocksAux_succ (padded nblocks fuel i : Nat) (st : Hash8) :
    hashBlocksAux padded nblocks (fuel + 1) i st =
      hashBlocksAux padded nblocks fuel (i + 1) (compressBlock st (blockWords nblocks padded i)) := rfl

theorem pad1_eq : padPacked 2029 packed1 = (32, padded1) := by rfl

theorem pad2_eq : padPacked 2029 packed2 = (32, padded2) := by rfl

/-- The 32 block compressions of the first message, one small kernel
step each. -/
theorem blk1_0 : compressBlock sha256H0 (blockWords 32 padded1 0) = st1_1 := by rfl
theorem blk1_1 : compressBlock st1_1 (blockWords 32 padded1 1) = st1_2 := by rfl
theorem blk1_2 : compressBlock st1_2 (blockWords 32 padded1 2) = st1_3 := by rfl
theorem blk1_3 : compressBlock st1_3 (blockWords 32 padded1 3) = st1_4 := by rfl
theorem blk1_4 : compressBlock st1_4 (blockWords 32 padded1 4) = st1_5 := by rfl
theorem blk1_5 : compressBlock st1_5 (blockWords 32 padded1 5) = st1_6 := by rfl
theorem blk1_6 : compressBlock st1_6 (blockWords 32 padded1 6) = st1_7 := by rfl
theorem blk1_7 : compressBlock st1_7 (blockWords 32 padded1 7) = st1_8 := by rfl
theorem blk1_8 : compressBlock st1_8 (blockWords 32 padded1 8) = st1_9 := by rfl
theorem blk1_9 : compressBlock st1_9 (blockWords 32 padded1 9) = st1_10 := by rfl
theorem blk1_10 : compressBlock st1_10 (blockWords 32 padded1 10) = st1_11 := by rfl
theorem blk1_11 : compressBlock st1_11 (blockWords 32 padded1 11) = st1_12 := by rfl
theorem blk1_12 : compressBlock st1_12 (blockWords 32 padded1 12) = st1_13 := by rfl
theorem blk1_13 : compressBlock st1_13 (blockWords 32 padded1 13) = st1_14 := by rfl
theorem blk1_14 : compressBlock st1_14 (blockWords 32 padded1 14) = st1_15 := by rfl
theorem blk1_15 : compressBlock st1_15 (blockWords 32 padded1 15) = st1_16 := by rfl
theorem blk1_16 : compressBlock st1_16 (blockWords 32 padded1 16) = st1_17 := by rfl
theorem blk1_17 : compressBlock st1_17 (blockWords 32 padded1 17) = st1_18 := by rfl
theorem blk1_18 : compressBlock st1_18 (blockWords 32 padded1 18) = st1_19 := by rfl
theorem blk1_19 : compressBlock st1_19 (blockWords 32 padded1 19) = st1_20 := by rfl
theorem blk1_20 : compressBlock st1_20 (blockWords 32 padded1 20) = st1_21 := by rfl
theorem blk1_21 : compressBlock st1_21 (blockWords 32 padded1 21) = st1_22 := by rfl
theorem blk1_22 : compressBlock st1_22 (blockWords 32 padded1 22) = st1_23 := by rfl
theorem blk1_23 : compressBlock st1_23 (blockWords 32 padded1 23) = st1_24 := by rfl
theorem blk1_24 : compressBlock st1_24 (blockWords 32 padded1 24) = st1_25 := by rfl
theorem blk1_25 : compressBlock st1_25 (blockWords 32 padded1 25) = st1_26 := by rfl
theorem blk1_26 : compressBlock st1_26 (blockWords 32 padded1 26) = st1_27 := by rfl
theorem blk1_27 : compressBlock st1_27 (blockWords 32 padded1 27) = st1_28 := by rfl
theorem blk1_28 : compressBlock st1_28 (blockWords 32 padded1 28) = st1_29 := by rfl
theorem blk1_29 : compressBlock st1_29 (blockWords 32 padded1 29) = st1_30 := by rfl
theorem blk1_30 : compressBlock st1_30 (blockWords 32 padded1 30) = st1_31 := by rfl
theorem blk1_31 : compressBlock st1_31 (blockWords 32 padded1 31) = st1_32 := by rfl

/-- The full 32-block compression of the first message, assembled
block by block. -/
theorem run1 : hashBlocksAux padded1 32 32 0 sha256H0 = st1_32 := by
  show hashBlocksAux padded1 32 (31 + 1) 0 sha256H0 = st1_32
  rw [hashBlocksAux_succ, blk1_0]
  show hashBlocksAux padded1 32 (30 + 1) 1 st1_1 = st1_32
  rw [hashBlocksAux_succ, blk1_1]
  show hashBlocksAux padded1 32 (29 + 1) 2 st1_2 = st1_32
  rw [hashBlocksAux_succ, blk1_2]
  show hashBlocksAux padded1 32 (28 + 1) 3 st1_3 = st1_32
  rw [hashBlocksAux_succ, blk1_3]
  show hashBlocksAux padded1 32 (27 + 1) 4 st1_4 = st1_32
  rw [hashBlocksAux_succ, blk1_4]
  show hashBlocksAux padded1 32 (26 + 1) 5 st1_5 = st1_32
  rw [hashBlocksAux_succ, blk1_5]
  show hashBlocksAux padded1 32 (25 + 1) 6 st1_6 = st1_32
  rw [hashBlocksAux_succ, blk1_6]
  show hashBlocksAux padded1 32 (24 + 1) 7 st1_7 = st1_32
  rw [hashBlocksAux_succ, blk1_7]
  show hashBlocksAux padded1 32 (23 + 1) 8 st1_8 = st1_32
  rw [hashBlocksAux_succ, blk1_8]
  show hashBlocksAux padded1 32 (22 + 1) 9 st1_9 = st1_32
  rw [hashBlocksAux_succ, blk1_9]
  show hashBlocksAux padded1 32 (21 + 1) 10 st1_10 = st1_32
  rw [hashBlocksAux_succ, blk1_10]
  show hashBlocksAux padded1 32 (20 + 1) 11 st1_11 = st1_32
  rw [hashBlocksAux_succ, blk1_11]
  show hashBlocksAux padded1 32 (19 + 1) 12 st1_12 = st1_32
  rw [hashBlocksAux_succ, blk1_12]
  show hashBlocksAux padded1 32 (18 + 1) 13 st1_13 = st1_32
  rw [hashBlocksAux_succ, blk1_13]
  show hashBlocksAux padded1 32 (17 + 1) 14 st1_14 = st1_32
  rw [hashBlocksAux_succ, blk1_14]
  show hashBlocksAux padded1 32 (16 + 1) 15 st1_15 = st1_32
  rw [hashBlocksAux_succ, blk1_15]
  show hashBlocksAux padded1 32 (15 + 1) 16 st1_16 = st1_32
  rw [hashBlocksAux_succ, blk1_16]
  show hashBlocksAux padded1 32 (14 + 1) 17 st1_17 = st1_32
  rw [hashBlocksAux_succ, blk1_17]
  show hashBlocksAux padded1 32 (13 + 1) 18 st1_18 = st1_32
  rw [hashBlocksAux_succ, blk1_18]
  show hashBlocksAux padded1 32 (12 + 1) 19 st1_19 = st1_32
  rw [hashBlocksAux_succ, blk1_19]
  show hashBlocksAux padded1 32 (11 + 1) 20 st1_20 = st1_32
  rw [hashBlocksAux_succ, blk1_20]
  show hashBlocksAux padded1 32 (10 + 1) 21 st1_21 = st1_32
  rw [hashBlocksAux_succ, blk1_21]
  show hashBlocksAux padded1 32 (9 + 1) 22 st1_22 = st1_32
  rw [hashBlocksAux_succ, blk1_22]
  show hashBlocksAux padded1 32 (8 + 1) 23 st1_23 = st1_32
  rw [hashBlocksAux_succ, blk1_23]
  show hashBlocksAux padded1 32 (7 + 1) 24 st1_24 = st1_32
  rw [hashBlocksAux_succ, blk1_24]
  show hashBlocksAux padded1 32 (6 + 1) 25 st1_25 = st1_32
  rw [hashBlocksAux_succ, blk1_25]
  show hashBlocksAux padded1 32 (5 + 1) 26 st1_26 = st1_32
  rw [hashBlocksAux_succ, blk1_26]
  show hashBlocksAux padded1 32 (4 + 1) 27 st1_27 = st1_32
  rw [hashBlocksAux_succ, blk1_27]
  show hashBlocksAux padded1 32 (3 + 1) 28 st1_28 = st1_32
  rw [hashBlocksAux_succ, blk1_28]
  show hashBlocksAux padded1 32 (2 + 1) 29 st1_29 = st1_32
  rw [hashBlocksAux_succ, blk1_29]
  show hashBlocksAux padded1 32 (1 + 1) 30 st1_30 = st1_32
  rw [hashBlocksAux_succ, blk1_30]
  show hashBlocksAux padded1 32 (0 + 1) 31 st1_31 = st1_32
  rw [hashBlocksAux_succ, blk1_31]
  show hashBlocksAux padded1 32 0 32 st1_32 = st1_32
  rfl

/-- The 32 block compressions of the second message, one small kernel
step each. -/
theorem blk2_0 : compressBlock sha256H0 (blockWords 32 padded2 0) = st2_1 := by rfl
theorem blk2_1 : compressBlock st2_1 (blockWords 32 padded2 1) = st2_2 := by rfl
theorem blk2_2 : compressBlock st2_2 (blockWords 32 padded2 2) = st2_3 := by rfl
theorem blk2_3 : compressBlock st2_3 (blockWords 32 padded2 3) = st2_4 := by rfl
theorem blk2_4 : compressBlock st2_4 (blockWords 32 padded2 4) = st2_5 := by rfl
theorem blk2_5 : compressBlock st2_5 (blockWords 32 padded2 5) = st2_6 := by rfl
theorem blk2_6 : compressBlock st2_6 (blockWords 32 padded2 6) = st2_7 := by rfl
theorem blk2_7 : compressBlock st2_7 (blockWords 32 padded2 7) = st2_8 := by rfl
theorem blk2_8 : compressBlock st2_8 (blockWords 32 padded2 8) = st2_9 := by rfl
theorem blk2_9 : compressBlock st2_9 (blockWords 32 padded2 9) = st2_10 := by rfl
theorem blk2_10 : compressBlock st2_10 (blockWords 32 padded2 10) = st2_11 := by rfl
theorem blk2_11 : compressBlock st2_11 (blockWords 32 padded2 11) = st2_12 := by rfl
theorem blk2_12 : compressBlock st2_12 (blockWords 32 padded2 12) = st2_13 := by rfl
theorem blk2_13 : compressBlock st2_13 (blockWords 32 padded2 13) = st2_14 := by rfl
theorem blk2_14 : compressBlock st2_14 (blockWords 32 padded2 14) = st2_15 := by rfl
theorem blk2_15 : compressBlock st2_15 (blockWords 32 padded2 15) = st2_16 := by rfl
theorem blk2_16 : compressBlock st2_16 (blockWords 32 padded2 16) = st2_17 := by rfl
theorem blk2_17 : compressBlock st2_17 (blockWords 32 padded2 17) = st2_18 := by rfl
theorem blk2_18 : compressBlock st2_18 (blockWords 32 padded2 18) = st2_19 := by rfl
theorem blk2_19 : compressBlock st2_19 (blockWords 32 padded2 19) = st2_20 := by rfl
theorem blk2_20 : compressBlock st2_20 (blockWords 32 padded2 20) = st2_21 := by rfl
theorem blk2_21 : compressBlock st2_21 (blockWords 32 padded2 21) = st2_22 := by rfl
theorem blk2_22 : compressBlock st2_22 (blockWords 32 padded2 22) = st2_23 := by rfl
theorem blk2_23 : compressBlock st2_23 (blockWords 32 padded2 23) = st2_24 := by rfl
theorem blk2_24 : compressBlock st2_24 (blockWords 32 padded2 24) = st2_25 := by rfl
theorem blk2_25 : compressBlock st2_25 (blockWords 32 padded2 25) = st2_26 := by rfl
theorem blk2_26 : compressBlock st2_26 (blockWords 32 padded2 26) = st2_27 := by rfl
theorem blk2_27 : compressBlock st2_27 (blockWords 32 padded2 27) = st2_28 := by rfl
theorem blk2_28 : compressBlock st2_28 (blockWords 32 padded2 28) = st2_29 := by rfl
theorem blk2_29 : compressBlock st2_29 (blockWords 32 padded2 29) = st2_30 := by rfl
theorem blk2_30 : compressBlock st2_30 (blockWords 32 padded2 30) = st2_31 := by rfl
theorem blk2_31 : compressBlock st2_31 (blockWords 32 padded2 31) = st2_32 := by rfl

/-- The full 32-block compression of the second message, assembled
block by block. -/
theorem run2 : hashBlocksAux padded2 32 32 0 sha256H0 = st2_32 := by
  show hashBlocksAux padded2 32 (31 + 1) 0 sha256H0 = st2_32
  rw [hashBlocksAux_succ, blk2_0]
  show hashBlocksAux padded2 32 (30 + 1) 1 st2_1 = st2_32
  rw [hashBlocksAux_succ, blk2_1]
  show hashBlocksAux padded2 32 (29 + 1) 2 st2_2 = st2_32
  rw [hashBlocksAux_succ, blk2_2]
  show hashBlocksAux padded2 32 (28 + 1) 3 st2_3 = st2_32
  rw [hashBlocksAux_succ, blk2_3]
  show hashBlocksAux padded2 32 (27 + 1) 4 st2_4 = st2_32
  rw [hashBlocksAux_succ, blk2_4]
  show hashBlocksAux padded2 32 (26 + 1) 5 st2_5 = st2_32
  rw [hashBlocksAux_succ, blk2_5]
  show hashBlocksAux padded2 32 (25 + 1) 6 st2_6 = st2_32
  rw [hashBlocksAux_succ, blk2_6]
  show hashBlocksAux padded2 32 (24 + 1) 7 st2_7 = st2_32
  rw [hashBlocksAux_succ, blk2_7]
  show hashBlocksAux padded2 32 (23 + 1) 8 st2_8 = st2_32
  rw [hashBlocksAux_succ, blk2_8]
  show hashBlocksAux padded2 32 (22 + 1) 9 st2_9 = st2_32
  rw [hashBlocksAux_succ, blk2_9]
  show hashBlocksAux padded2 32 (21 + 1) 10 st2_10 = st2_32
  rw [hashBlocksAux_succ, blk2_10]
  show hashBlocksAux padded2 32 (20 + 1) 11 st2_11 = st2_32
  rw [hashBlocksAux_succ, blk2_11]
  show hashBlocksAux padded2 32 (19 + 1) 12 st2_12 = st2_32
  rw [hashBlocksAux_succ, blk2_12]
  show hashBlocksAux padded2 32 (18 + 1) 13 st2_13 = st2_32
  rw [hashBlocksAux_succ, blk2_13]
  show hashBlocksAux padded2 32 (17 + 1) 14 st2_14 = st2_32
  rw [hashBlocksAux_succ, blk2_14]
  show hashBlocksAux padded2 32 (16 + 1) 15 st2_15 = st2_32
  rw [hashBlocksAux_succ, blk2_15]
  show hashBlocksAux padded2 32 (15 + 1) 16 st2_16 = st2_32
  rw [hashBlocksAux_succ, blk2_16]
  show hashBlocksAux padded2 32 (14 + 1) 17 st2_17 = st2_32
  rw [hashBlocksAux_succ, blk2_17]
  show hashBlocksAux padded2 32 (13 + 1) 18 st2_18 = st2_32
  rw [hashBlocksAux_succ, blk2_18]
  show hashBlocksAux padded2 32 (12 + 1) 19 st2_19 = st2_32
  rw [hashBlocksAux_succ, blk2_19]
  show hashBlocksAux padded2 32 (11 + 1) 20 st2_20 = st2_32
  rw [hashBlocksAux_succ, blk2_20]
  show hashBlocksAux padded2 32 (10 + 1) 21 st2_21 = st2_32
  rw [hashBlocksAux_succ, blk2_21]
  show hashBlocksAux padded2 32 (9 + 1) 22 st2_22 = st2_32
  rw [hashBlocksAux_succ, blk2_22]
  show hashBlocksAux padded2 32 (8 + 1) 23 st2_23 = st2_32
  rw [hashBlocksAux_succ, blk2_23]
  show hashBlocksAux padded2 32 (7 + 1) 24 st2_24 = st2_32
  rw [hashBlocksAux_succ, blk2_24]
  show hashBlocksAux padded2 32 (6 + 1) 25 st2_25 = st2_32
  rw [hashBlocksAux_succ, blk2_25]
  show hashBlocksAux padded2 32 (5 + 1) 26 st2_26 = st2_32
  rw [hashBlocksAux_succ, blk2_26]
  show hashBlocksAux padded2 32 (4 + 1) 27 st2_27 = st2_32
  rw [hashBlocksAux_succ, blk2_27]
  show hashBlocksAux padded2 32 (3 + 1) 28 st2_28 = st2_32
  rw [hashBlocksAux_succ, blk2_28]
  show hashBlocksAux padded2 32 (2 + 1) 29 st2_29 = st2_32
  rw [hashBlocksAux_succ, blk2_29]
  show hashBlocksAux padded2 32 (1 + 1) 30 st2_30 = st2_32
  rw [hashBlocksAux_succ, blk2_30]
  show hashBlocksAux padded2 32 (0 + 1) 31 st2_31 = st2_32
  rw [hashBlocksAux_succ, blk2_31]
  show hashBlocksAux padded2 32 0 32 st2_32 = st2_32
  rfl

theorem hash1_val : calculate_schema_hash (schemaLit ts1) =
    "f45c78e2f57cc24d2852c7c72aee3cc36d11d9927edc9d39723f716f31603693" := by
  simp only [calculate_schema_hash, calculate_schema_hash_serialized, to_string_result,
             Option.getD_some, sha256Hex, sha256Digest, len1_eq, pack1_eq]
  rw [pad1_eq]
  show bytesToHexString (Hash8.toBytes (hashBlocksAux padded1 32 32 0 sha256H0)) = _
  rw [run1]
  rfl

theorem hash2_val : calculate_schema_hash (schemaLit ts2) =
    "4ff8fb5b5030650368e30037432772cc141e05cbb3e44a9e3b0b75920d3c3546" := by
  simp only [calculate_schema_hash, calculate_schema_hash_serialized, to_string_result,
             Option.getD_some, sha256Hex, sha256Digest, len2_eq, pack2_eq]
  rw [pad2_eq]
  show bytesToHexString (Hash8.toBytes (hashBlocksAux padded2 32 32 0 sha256H0)) = _
  rw [run2]
  rfl

/-! ## The structural analyzer never fails below the root -/

/-- `analyze_field_structure` returns `Ok` on every input: each match arm
is `Ok`, and the array arm only propagates the recursive call on the
first element. -/
theorem afs_ok : ∀ (v : Json) (name : String),
    ∃ s, analyze_field_structure v name = .ok s
  | .null, _ => ⟨_, rfl⟩
  | .bool _, _ => ⟨_, rfl⟩
  | .num _, _ => ⟨_, rfl⟩
  | .str _, _ => ⟨_, rfl⟩
  | .arr [], _ => ⟨_, rfl⟩
  | .arr (x :: _), name => by
      obtain ⟨s, hs⟩ := afs_ok x "array_item"
      exact ⟨mkObj [("type", .str "array"), ("items", s),
                    ("description", .str ("Array field: " ++ name))],
             by simp [analyze_field_structure, hs, Bind.bind, Except.bind]⟩
  | .obj _, _ => ⟨_, rfl⟩

theorem afs_eq_afsVal (v : Json) (name : String) :
    analyze_field_structure v name = .ok (afsVal v name) := by
  obtain ⟨s, hs⟩ := afs_ok v name
  simp [afsVal, hs]

/-- The field loop of `analyze_complete_structure` always succeeds. -/
theorem foldlM_analyze_ok (l : List (String × Json)) :
    ∀ acc, ∃ pr, List.foldlM analyzeStep acc l = Except.ok pr := by
  induction l with
  | nil => intro acc; exact ⟨acc, rfl⟩
  | cons kv rest ih =>
      intro acc
      cases hnull : kv.2.is_null with
      | true =>
          obtain ⟨pr, hpr⟩ := ih (insertSorted kv.1 (afsVal kv.2 kv.1) acc.1, acc.2)
          exact ⟨pr, by simp [List.foldlM, analyzeStep, afs_eq_afsVal, hnull, hpr,
            Bind.bind, Except.bind]⟩
      | false =>
          obtain ⟨pr, hpr⟩ := ih (insertSorted kv.1 (afsVal kv.2 kv.1) acc.1, acc.2 ++ [kv.1])
          exact ⟨pr, by simp [List.foldlM, analyzeStep, afs_eq_afsVal, hnull, hpr,
            Bind.bind, Except.bind]⟩

/-! ## Claims C2, C5, C6, C8 -/

/-- C2: the claim says every field whose value is an object is recursed
into per field, so nesting depth is preserved and a nested object never
becomes a bare `type: object` leaf.  Counterexample at the explicit input
`{"a": {"b": 1}}`: the fragment stored under `properties.a` is exactly
the bare two-field leaf, and it has no `properties` entry at all. -/
theorem C2_counterexample :
    (analyze_complete_structure (mkObj [("a", mkObj [("b", Json.num (.posInt 1))])])).map
        (fun r => (r.lookup "properties").map (fun p => p.lookup "a")) =
      .ok (some (some (Json.obj [("description", Json.str "Object field: a"),
                                 ("type", Json.str "object")]))) ∧
    (Json.obj [("description", Json.str "Object field: a"),
               ("type", Json.str "object")]).lookup "properties" = none :=
  ⟨rfl, rfl⟩

/-- C2 amended: only the root object is recursed into per field; a field
whose value is an object always yields the bare fragment
`{type: "object", description: "Object field: <name>"}` with no
`properties`, whatever the object contains, so the output schema follows
the input's nesting only to depth one below the root. -/
theorem C2_amended_nested_object_is_bare_leaf (l : List (String × Json)) (name : String) :
    analyze_field_structure (.obj l) name =
      .ok (mkObj [("type", .str "object"),
                  ("description", .str ("Object field: " ++ name))]) := rfl

/-- C5: `analyze_complete_structure` returns an error if and only if the
root is not a JSON object: every non-object root (null, boolean, number,
string, array) fails, every object root succeeds. -/
theorem C5_error_iff_root_not_object (v : Json) :
    (analyze_complete_structure v).isOk = v.is_object := by
  cases v with
  | obj l =>
      obtain ⟨pr, hpr⟩ := foldlM_analyze_ok l ([], [])
      simp [analyze_complete_structure, hpr, Json.is_object, Bind.bind, Except.bind,
        Except.isOk, Except.toBool]
  | null => rfl
  | bool b => rfl
  | num n => rfl
  | str s => rfl
  | arr elems => rfl

/-- C6: a non-empty array field's `items` is exactly the fragment the
analyzer produces for the first element alone (under the field name
"array_item"); later elements are never inspected; an empty array gets
the fixed unknown-item placeholder. -/
theorem C6_array_items_from_first_element (x : Json) (xs ys : List Json) (name : String) :
    analyze_field_structure (.arr (x :: xs)) name =
      (analyze_field_structure x "array_item").map
        (fun items => mkObj [("type", .str "array"), ("items", items),
                             ("description", .str ("Array field: " ++ name))]) ∧
    analyze_field_structure (.arr (x :: xs)) name =
      analyze_field_structure (.arr (x :: ys)) name ∧
    analyze_field_structure (.arr []) name =
      .ok (mkObj [("type", .str "array"),
                  ("items", mkObj [("description", .str "Array type - items unknown from empty array")]),
                  ("description", .str ("Array field: " ++ name))]) := by
  refine ⟨?_, ?_, rfl⟩
  · obtain ⟨s, hs⟩ := afs_ok x "array_item"
    simp [analyze_field_structure, hs, Bind.bind, Except.bind, Except.map]
  · simp [analyze_field_structure]

/-- C8: the claim says a numeric field maps to `"integer"` exactly when
the number is integral.  Counterexample at the explicit input `2.0` (an
integral-valued float): the value is integral in the spec's sense, yet
the fragment's type is `"number"`, because the code tests the serde
representation (`is_i64() || is_u64()`), not integrality. -/
theorem C8_counterexample :
    integralPerSpec (.float 2) = true ∧
    analyze_field_structure (.num (.float 2)) "x" =
      .ok (mkObj [("type", .str "number"),
                  ("description", .str "Number field: x")]) :=
  ⟨rfl, rfl⟩

/-- C8 amended: the fragment's type is decided by the serde
representation: any float maps to `"number"` (an integral-valued float
such as 2.0 included), and any integer-represented number maps to
`"integer"`. -/
theorem C8_amended_number_type_by_representation (q : ℚ) (name : String) :
    analyze_field_structure (.num (.float q)) name =
      .ok (mkObj [("type", .str "number"),
                  ("description", .str ("Number field: " ++ name))]) ∧
    ∀ n : JNumber, (n.is_i64 || n.is_u64) = true →
      analyze_field_structure (.num n) name =
        .ok (mkObj [("type", .str "integer"),
                    ("description", .str ("Integer field: " ++ name))]) := by
  constructor
  · rfl
  · intro n h
    cases n with
    | posInt v => simp [analyze_field_structure, JNumber.is_i64, JNumber.is_u64, capitalizeFirst]
    | negInt v => rfl
    | float q' => simp [JNumber.is_i64, JNumber.is_u64] at h

/-- Witness for the amended C8 at concrete inputs: the float `2.0` and
the integer `5`. -/
theorem C8_witness :
    analyze_field_structure (.num (.float 2)) "x" =
      .ok (mkObj [("type", .str "number"),
                  ("description", .str "Number field: x")]) ∧
    analyze_field_structure (.num (.posInt 5)) "x" =
      .ok (mkObj [("type", .str "integer"),
                  ("description", .str "Integer field: x")]) :=
  ⟨(C8_amended_number_type_by_representation 2 "x").1,
   (C8_amended_number_type_by_representation 2 "x").2 (.posInt 5) rfl⟩

/-! ## Claim C1: dependence of the hash on the generation timestamp -/

/-- C1: the claim says two capture invocations whose generated schemas
are identical apart from the embedded `_generation_timestamp` get the
same digest.  Counterexample at explicit inputs: two structural-path
generations on the canned instance at timestamps `ts1` and `ts2`; the
two schema documents agree once `_generation_timestamp` is removed, yet
their digests differ, because the timestamp is inserted into the schema
before hashing. -/
theorem C1_counterexample :
    generate_schema_from_actual_type test_instance_serialized ts1 = .ok (schemaLit ts1) ∧
    generate_schema_from_actual_type test_instance_serialized ts2 = .ok (schemaLit ts2) ∧
    removeKey (schemaLit ts1) "_generation_timestamp" =
      removeKey (schemaLit ts2) "_generation_timestamp" ∧
    calculate_schema_hash (schemaLit ts1) ≠ calculate_schema_hash (schemaLit ts2) := by
  refine ⟨schemaLit_ok1, schemaLit_ok2, rfl, ?_⟩
  rw [hash1_val, hash2_val]
  decide

/-- C1 amended: `calculate_schema_hash` digests the full serialized
schema, embedded `_generation_timestamp` included, so the two runs above
produce these two different digests; the hash is deterministic in the
complete serialized content (equal serializations give equal digests). -/
theorem C1_amended_hash_covers_timestamp :
    calculate_schema_hash (schemaLit ts1) =
      "f45c78e2f57cc24d2852c7c72aee3cc36d11d9927edc9d39723f716f31603693" ∧
    calculate_schema_hash (schemaLit ts2) =
      "4ff8fb5b5030650368e30037432772cc141e05cbb3e44a9e3b0b75920d3c3546" ∧
    ∀ s t : Json, jsonToString s = jsonToString t →
      calculate_schema_hash s = calculate_schema_hash t := by
  refine ⟨hash1_val, hash2_val, ?_⟩
  intro s t h
  simp [calculate_schema_hash, calculate_schema_hash_serialized, to_string_result, h]

/-- Witness for the amended C1, discharging its hypothesis at a concrete
input: the first run's schema serializes as itself, so its digest equals
itself. -/
theorem C1_witness :
    calculate_schema_hash (schemaLit ts1) = calculate_schema_hash (schemaLit ts1) :=
  C1_amended_hash_covers_timestamp.2.2 (schemaLit ts1) (schemaLit ts1) rfl

/-! ## Claim C4: the end-to-end example -/

/-- C4: on the spec's example input `{"a": "x", "b": null, "c": [1,2]}`
the analyzer yields: `properties` holding exactly the three expected
fragments, `properties.a` of type string, `properties.b` with an `anyOf`
containing the null branch, `properties.c` an array whose `items` has
type integer, and `required = ["a", "c"]`. -/
theorem C4_end_to_end_example :
    (analyze_complete_structure c4_input).map (fun r => r.lookup "properties") =
      .ok (some (Json.obj [("a", c4_props_a), ("b", c4_props_b), ("c", c4_props_c)])) ∧
    c4_props_a.lookup "type" = some (Json.str "string") ∧
    c4_props_b.lookup "anyOf" =
      some (Json.arr [Json.obj [("type", Json.str "null")],
        Json.obj [("description", Json.str "Optional field - type determined at runtime")]]) ∧
    c4_props_c.lookup "type" = some (Json.str "array") ∧
    (c4_props_c.lookup "items").map (fun i => i.lookup "type") =
      some (some (Json.str "integer")) ∧
    (analyze_complete_structure c4_input).map (fun r => r.lookup "required") =
      .ok (some (Json.arr [Json.str "a", Json.str "c"])) :=
  ⟨rfl, rfl, rfl, rfl, rfl, rfl⟩

/-! ## Shape of the hex digest -/

theorem toBytesBE_length : ∀ k v : Nat, (toBytesBE k v).length = k := by
  intro k
  induction k with
  | zero => intro v; rfl
  | succ n ih => intro v; simp [toBytesBE, ih]

theorem toBytes_length (st : Hash8) : st.toBytes.length = 32 := by
  simp [Hash8.toBytes, toBytesBE_length]

theorem hexDigitChar_isHex {n : Nat} (h : n < 16) :
    isLowerHexDigit (hexDigitChar n) = true := by
  interval_cases n <;> rfl

theorem byteToHex_hex (b : Nat) : ∀ c ∈ byteToHex b, isLowerHexDigit c = true := by
  intro c hc
  simp [byteToHex] at hc
  rcases hc with h | h <;> subst h <;>
    exact hexDigitChar_isHex (Nat.mod_lt _ (by omega))

theorem bytesToHexString_length (bs : List Nat) :
    (bytesToHexString bs).length = 2 * bs.length := by
  induction bs with
  | nil => rfl
  | cons b rest ih =>
      show (String.mk _).length = _
      simp only [String.length] at ih ⊢
      simp [bytesToHexString, List.foldr_cons, byteToHex] at ih ⊢
      omega

theorem bytesToHexString_hex (bs : List Nat) :
    ∀ c ∈ (bytesToHexString bs).data, isLowerHexDigit c = true := by
  induction bs with
  | nil => intro c hc; simp [bytesToHexString] at hc
  | cons b rest ih =>
      intro c hc
      simp only [bytesToHexString, List.foldr_cons] at hc
      rcases List.mem_append.mp hc with h | h
      · exact byteToHex_hex b c h
      · exact ih c h

theorem calculate_schema_hash_length (v : Json) :
    (calculate_schema_hash v).length = 64 := by
  simp [calculate_schema_hash, calculate_schema_hash_serialized, to_string_result,
        sha256Hex, sha256Digest, bytesToHexString_length, toBytes_length]

theorem calculate_schema_hash_def (v : Json) :
    calculate_schema_hash v =
      bytesToHexString (sha256Digest (stringUtf8Bytes (jsonToString v))) := rfl

theorem calculate_schema_hash_hex (v : Json) :
    ∀ c ∈ (calculate_schema_hash v).data, isLowerHexDigit c = true := by
  intro c hc
  rw [calculate_schema_hash_def] at hc
  exact bytesToHexString_hex _ c hc

/-! ## ASCII byte slices -/

theorem charUtf8Bytes_len_one {c : Char} (h : c.toNat < 128) :
    (charUtf8Bytes c).length = 1 := by
  simp [charUtf8Bytes, h]

theorem hexDigit_ascii {c : Char} (h : isLowerHexDigit c = true) : c.toNat < 128 := by
  simp [isLowerHexDigit] at h
  omega

theorem byteSliceAux_ascii_some : ∀ (l : List Char) (n : Nat),
    (∀ c ∈ l, c.toNat < 128) → n ≤ l.length →
    (byteSlicePrefixAux l n).isSome = true := by
  intro l
  induction l with
  | nil =>
      intro n _ hn
      have : n = 0 := Nat.le_zero.mp hn
      subst this
      rfl
  | cons c cs ih =>
      intro n hall hn
      cases n with
      | zero => rfl
      | succ m =>
          have h1 : (charUtf8Bytes c).length = 1 := charUtf8Bytes_len_one (hall c (by simp))
          have hih := ih m (fun d hd => hall d (by simp [hd])) (by simpa using hn)
          simp only [byteSlicePrefixAux, h1]
          rw [if_pos (by omega)]
          rw [show m + 1 - 1 = m by omega]
          cases hrec : byteSlicePrefixAux cs m with
          | none => rw [hrec] at hih; exact absurd hih (by simp)
          | some p => rfl

theorem hashSlice_some (v : Json) (n : Nat) (hn : n ≤ 64) :
    (byteSlicePrefix (calculate_schema_hash v) n).isSome = true := by
  have hasc : ∀ c ∈ (calculate_schema_hash v).toList, c.toNat < 128 :=
    fun c hc => hexDigit_ascii (calculate_schema_hash_hex v c hc)
  have hlen : (calculate_schema_hash v).toList.length = 64 := calculate_schema_hash_length v
  have haux := byteSliceAux_ascii_some ((calculate_schema_hash v).toList) n hasc
    (le_of_le_of_eq hn hlen.symm)
  unfold byteSlicePrefix
  cases h : byteSlicePrefixAux ((calculate_schema_hash v).toList) n with
  | none => rw [h] at haux; exact absurd haux (by simp)
  | some p => rfl

/-! ## Claim C9 -/

/-- C9: `calculate_schema_hash` is total: for every JSON value it
returns a string of exactly 64 lowercase hexadecimal characters (so the
report's 12-character prefix slice cannot panic), and, were serialization
ever to fail, the `unwrap_or_default` silently hashes the empty string
(giving SHA-256 of "") instead of reporting the failure. -/
theorem C9_hash_always_64_lowercase_hex (v : Json) :
    (calculate_schema_hash v).length = 64 ∧
    (calculate_schema_hash v).data.all isLowerHexDigit = true ∧
    (byteSlicePrefix (calculate_schema_hash v) 12).isSome = true ∧
    calculate_schema_hash_serialized none = sha256Hex "" ∧
    calculate_schema_hash_serialized none =
      "e3b0c44298fc1c149afbf4c8996fb92427ae41e4649b934ca495991b7852b855" := by
  refine ⟨calculate_schema_hash_length v, ?_, hashSlice_some v 12 (by omega), rfl, ?_⟩
  · exact List.all_eq_true.mpr fun c hc => calculate_schema_hash_hex v c hc
  · rfl

/-! ## Sorted-key machinery for the object analysis -/

theorem listLtB_irrefl : ∀ l : List Char, listLtB l l = false := by
  intro l
  induction l with
  | nil => rfl
  | cons c cs ih => simp [listLtB, ih]

theorem listLtB_asymm : ∀ a b : List Char, listLtB a b = true → listLtB b a = false := by
  intro a
  induction a with
  | nil =>
      intro b h
      cases b with
      | nil => simp [listLtB] at h
      | cons d ds => rfl
  | cons c cs ih =>
      intro b h
      cases b with
      | nil => simp [listLtB] at h
      | cons d ds =>
          by_cases h1 : c.toNat < d.toNat
          · simp [listLtB, h1, show ¬(d.toNat < c.toNat) by omega]
          · by_cases h2 : d.toNat < c.toNat
            · simp [listLtB, h1, h2] at h
            · simp [listLtB, h1, h2] at h ⊢
              exact ih ds h

theorem strLtB_asymm (a b : String) (h : strLtB a b = true) : strLtB b a = false :=
  listLtB_asymm _ _ h

theorem strLtB_ne (a b : String) (h : strLtB a b = true) : a ≠ b := by
  intro he
  rw [he] at h
  rw [show strLtB b b = false from listLtB_irrefl _] at h
  exact Bool.false_ne_true h

theorem insertSorted_append (k : String) (v : Json) :
    ∀ props : List (String × Json), (∀ p ∈ props, strLtB p.1 k = true) →
      insertSorted k v props = props ++ [(k, v)] := by
  intro props
  induction props with
  | nil => intro _; rfl
  | cons kv rest ih =>
      intro h
      cases kv with
      | mk k' v' =>
          have h1 : strLtB k' k = true := h (k', v') (by simp)
          have h2 : strLtB k k' = false := strLtB_asymm _ _ h1
          have h3 : k ≠ k' := fun he => (strLtB_ne _ _ h1) he.symm
          simp [insertSorted, h2, h3]
          exact ih (fun p hp => h p (by simp [hp]))

/-- Characterization of the `analyze_complete_structure` field loop on a
key-sorted input (the `BTreeMap` invariant): each field's schema lands at
the end of `properties`, so `properties` follows the input keys in order,
and each non-null field's name is pushed onto `required_fields`. -/
theorem analyze_foldlM : ∀ (l : List (String × Json)) (props : List (String × Json))
    (req : List String),
    List.Pairwise (fun a b => strLtB a.1 b.1 = true) l →
    (∀ p ∈ props, ∀ q ∈ l, strLtB p.1 q.1 = true) →
    List.foldlM analyzeStep (props, req) l =
      Except.ok (props ++ l.map (fun kv => (kv.1, afsVal kv.2 kv.1)),
                 req ++ ((l.filter (fun kv => !kv.2.is_null)).map Prod.fst)) := by
  intro l
  induction l with
  | nil => intro props req _ _; simp; rfl
  | cons kv rest ih =>
      intro props req hpair hgt
      cases kv with
      | mk k v =>
          have hins : insertSorted k (afsVal v k) props = props ++ [(k, afsVal v k)] :=
            insertSorted_append k (afsVal v k) props
              (fun p hp => hgt p hp (k, v) (by simp))
          have hpair' := (List.pairwise_cons.mp hpair).2
          have hhead := (List.pairwise_cons.mp hpair).1
          have hgt' : ∀ p ∈ props ++ [(k, afsVal v k)], ∀ q ∈ rest,
              strLtB p.1 q.1 = true := by
            intro p hp q hq
            rcases List.mem_append.mp hp with h' | h'
            · exact hgt p h' q (by simp [hq])
            · have : p = (k, afsVal v k) := by simpa using h'
              subst this
              exact hhead q hq
          have hunfold : List.foldlM analyzeStep (props, req) ((k, v) :: rest) =
              analyzeStep (props, req) (k, v) >>=
                (fun x => List.foldlM analyzeStep x rest) := rfl
          cases hv : v.is_null with
          | true =>
              have hstep : analyzeStep (props, req) (k, v) =
                  .ok (props ++ [(k, afsVal v k)], req) := by
                simp [analyzeStep, afs_eq_afsVal, Bind.bind, Except.bind, hins, hv]
              have hrec := ih (props ++ [(k, afsVal v k)]) req hpair' hgt'
              rw [hunfold, hstep]
              simp only [Bind.bind, Except.bind]
              rw [hrec]
              simp [hv, List.filter_cons]
          | false =>
              have hstep : analyzeStep (props, req) (k, v) =
                  .ok (props ++ [(k, afsVal v k)], req ++ [k]) := by
                simp [analyzeStep, afs_eq_afsVal, Bind.bind, Except.bind, hins, hv]
              have hrec := ih (props ++ [(k, afsVal v k)]) (req ++ [k]) hpair' hgt'
              rw [hunfold, hstep]
              simp only [Bind.bind, Except.bind]
              rw [hrec]
              simp [hv, List.filter_cons]

/-! ## Claim C3 -/

/-- C3: on every object root (fields in map order, keys strictly
increasing as `BTreeMap` guarantees), the analyzer succeeds with a schema
of type `"object"`, whose `properties` has exactly one entry per input
key in order, and whose `required` lists exactly the keys whose value is
non-null. -/
theorem C3_object_root_shape (l : List (String × Json))
    (h : List.Pairwise (fun a b => strLtB a.1 b.1 = true) l) :
    ∃ r, analyze_complete_structure (.obj l) = .ok r ∧
      r.lookup "type" = some (.str "object") ∧
      (∃ props, r.lookup "properties" = some (.obj props) ∧
          props.map Prod.fst = l.map Prod.fst) ∧
      r.lookup "required" =
        some (.arr (((l.filter (fun kv => !kv.2.is_null)).map Prod.fst).map Json.str)) := by
  have hfold := analyze_foldlM l [] [] h (by simp)
  have hmain : analyze_complete_structure (.obj l) =
      .ok (mkObj [("$schema", .str "http://json-schema.org/draft-07/schema#"),
                  ("title", .str "ConversationState"),
                  ("type", .str "object"),
                  ("description", .str "Amazon Q CLI conversation state structure"),
                  ("properties", .obj (l.map (fun kv => (kv.1, afsVal kv.2 kv.1)))),
                  ("required", .arr (((l.filter (fun kv => !kv.2.is_null)).map Prod.fst).map Json.str))]) := by
    simp [analyze_complete_structure, hfold, Bind.bind, Except.bind]
  refine ⟨_, hmain, rfl, ⟨_, rfl, ?_⟩, rfl⟩
  simp [List.map_map, Function.comp]

/-- Witness for C3 at the concrete sorted object
`{"a": null, "b": "x"}`. -/
theorem C3_witness :
    ∃ r, analyze_complete_structure (.obj [("a", Json.null), ("b", Json.str "x")]) = .ok r ∧
      r.lookup "type" = some (.str "object") ∧
      (∃ props, r.lookup "properties" = some (.obj props) ∧
          props.map Prod.fst =
            ([("a", Json.null), ("b", Json.str "x")] : List (String × Json)).map Prod.fst) ∧
      r.lookup "required" =
        some (.arr ((((([("a", Json.null), ("b", Json.str "x")] : List (String × Json))).filter
            (fun kv => !kv.2.is_null)).map Prod.fst).map Json.str)) :=
  C3_object_root_shape [("a", Json.null), ("b", Json.str "x")] (by decide)

/-! ## Capture orchestrator machinery -/

/-- Under the conditions of a real run (declarative flag set, or a
serialized instance that is an object), the selected generation strategy
succeeds. -/
theorem gen_ok (use_schemars : Bool) (schemarsBase serialized : Json) (genNow : String)
    (hroot : use_schemars = true ∨ serialized.is_object = true) :
    ∃ s, (if use_schemars then generate_schema_with_schemars schemarsBase genNow
          else generate_schema_from_actual_type serialized genNow) = .ok s := by
  cases use_schemars with
  | true => exact ⟨_, rfl⟩
  | false =>
      have hobj : serialized.is_object = true := by
        rcases hroot with h | h
        · exact absurd h (by simp)
        · exact h
      cases serialized with
      | obj l =>
          obtain ⟨pr, hpr⟩ := foldlM_analyze_ok l ([], [])
          refine ⟨addGenerationMetadata (mkObj
              [("$schema", .str "http://json-schema.org/draft-07/schema#"),
               ("title", .str "ConversationState"),
               ("type", .str "object"),
               ("description", .str "Amazon Q CLI conversation state structure"),
               ("properties", .obj pr.1),
               ("required", .arr (pr.2.map .str))])
              "type_introspection" genNow
              "Generated through type introspection without upstream modifications", ?_⟩
          simp [generate_schema_from_actual_type, analyze_complete_structure, hpr,
            Bind.bind, Except.bind]
      | null => simp [Json.is_object] at hobj
      | bool b => simp [Json.is_object] at hobj
      | num n => simp [Json.is_object] at hobj
      | str s => simp [Json.is_object] at hobj
      | arr elems => simp [Json.is_object] at hobj

/-- A successful byte slice never reaches past the string's byte length. -/
theorem byteSliceAux_some_le : ∀ (l : List Char) (n : Nat) (p : List Char),
    byteSlicePrefixAux l n = some p →
    n ≤ (l.foldr (fun c acc => charUtf8Bytes c ++ acc) []).length := by
  intro l
  induction l with
  | nil =>
      intro n p h
      cases n with
      | zero => simp
      | succ m => simp [byteSlicePrefixAux] at h
  | cons c cs ih =>
      intro n p h
      cases n with
      | zero => simp
      | succ m =>
          simp only [byteSlicePrefixAux] at h
          by_cases hc : (charUtf8Bytes c).length ≤ m + 1
          · rw [if_pos hc] at h
            cases hrec : byteSlicePrefixAux cs (m + 1 - (charUtf8Bytes c).length) with
            | none => rw [hrec] at h; simp at h
            | some q =>
                have hle := ih _ q hrec
                simp only [List.foldr_cons, List.length_append]
                omega
          · rw [if_neg hc] at h
            simp at h

theorem byteSlice_some_le (s : String) (n : Nat) (p : String)
    (h : byteSlicePrefix s n = some p) : n ≤ utf8Len s := by
  unfold byteSlicePrefix at h
  cases haux : byteSlicePrefixAux s.toList n with
  | none => rw [haux] at h; simp at h
  | some q => exact byteSliceAux_some_le s.toList n q haux

/-! ## Claims C7 and C10 -/

/-- C7: when the git subprocess cannot spawn, exits unsuccessfully, or
yields non-UTF8 output (all the `get_git_commit` error cases), capture
does not propagate the error: it completes, and the document it writes
stores `git_commit: null`. -/
theorem C7_git_failure_gives_null_commit (note : Option String) (use_schemars : Bool)
    (schemarsBase serialized : Json) (genNow : String) (now : Timestamp) (git : GitResult)
    (e : GitError) (hgit : get_git_commit git = .error e)
    (hroot : use_schemars = true ∨ serialized.is_object = true) :
    ∃ filename output report,
      capture_schema note use_schemars schemarsBase serialized genNow now git =
        .ok filename output report ∧
      output.lookup "git_commit" = some Json.null := by
  obtain ⟨s, hs⟩ := gen_ok use_schemars schemarsBase serialized genNow hroot
  have hslice := hashSlice_some s 12 (by omega)
  simp only [capture_schema, hs, hgit, Except.toOption]
  cases h12 : byteSlicePrefix (calculate_schema_hash s) 12 with
  | none => rw [h12] at hslice; exact absurd hslice (by simp)
  | some hp =>
      refine ⟨_, _, _, rfl, rfl⟩

/-- Witness for C7: a concrete run whose git subprocess fails to spawn
completes with a `git_commit: null` document. -/
theorem C7_witness :
    ∃ filename output report,
      capture_schema none true (mkObj []) Json.null "g"
          ⟨"2025-08-20T12:00:00+00:00", "20250820_120000"⟩ ⟨false, false, none⟩ =
        .ok filename output report ∧
      output.lookup "git_commit" = some Json.null :=
  C7_git_failure_gives_null_commit none true (mkObj []) Json.null "g"
    ⟨"2025-08-20T12:00:00+00:00", "20250820_120000"⟩ ⟨false, false, none⟩
    .ioError rfl (Or.inl rfl)

/-- C10: when the git subprocess succeeds, the success report slices the
first 8 bytes of the trimmed commit unconditionally: if that slice would
panic the run panics, so the run completes without panicking only when
the trimmed stdout is at least 8 bytes long. -/
theorem C10_report_requires_8_byte_commit (note : Option String) (use_schemars : Bool)
    (schemarsBase serialized : Json) (genNow : String) (now : Timestamp) (git : GitResult)
    (c : String) (hgit : get_git_commit git = .ok c)
    (hroot : use_schemars = true ∨ serialized.is_object = true) :
    (capture_schema note use_schemars schemarsBase serialized genNow now git ≠
        CaptureResult.panicked → 8 ≤ utf8Len c) ∧
    (byteSlicePrefix c 8 = none →
      capture_schema note use_schemars schemarsBase serialized genNow now git =
        CaptureResult.panicked) := by
  obtain ⟨s, hs⟩ := gen_ok use_schemars schemarsBase serialized genNow hroot
  have hslice := hashSlice_some s 12 (by omega)
  have hpan : byteSlicePrefix c 8 = none →
      capture_schema note use_schemars schemarsBase serialized genNow now git =
        CaptureResult.panicked := by
    intro h8
    simp only [capture_schema, hs, hgit, Except.toOption]
    cases h12 : byteSlicePrefix (calculate_schema_hash s) 12 with
    | none => rfl
    | some hp => rw [h8]
  constructor
  · intro hnp
    cases h8 : byteSlicePrefix c 8 with
    | none => exact absurd (hpan h8) hnp
    | some p => exact byteSlice_some_le c 8 p h8
  · exact hpan

/-- Witness for C10: a concrete run whose git subprocess prints a 3-byte
commit (after trimming). -/
theorem C10_witness :
    (capture_schema none true (mkObj []) Json.null "g"
        ⟨"2025-08-20T12:00:00+00:00", "20250820_120000"⟩ ⟨true, true, some "abc\n"⟩ ≠
      CaptureResult.panicked → 8 ≤ utf8Len "abc") ∧
    (byteSlicePrefix "abc" 8 = none →
      capture_schema none true (mkObj []) Json.null "g"
          ⟨"2025-08-20T12:00:00+00:00", "20250820_120000"⟩ ⟨true, true, some "abc\n"⟩ =
        CaptureResult.panicked) :=
  C10_report_requires_8_byte_commit none true (mkObj []) Json.null "g"
    ⟨"2025-08-20T12:00:00+00:00", "20250820_120000"⟩ ⟨true, true, some "abc\n"⟩
    "abc" rfl (Or.inl rfl)

end SchemaTracker
